import Mathlib

/-!
Verification of the `inventree_datanorm_import` plugin (repository
`FahrJo/inventreeean`) against its natural-language specification.

The development is a shallow embedding of the three source modules:
  * `datanorm_barcode_plugin.py` — barcode validation (`is_valid_ean_code`),
    the scan entry point, and `create_all_parts_from_datanorm_items`;
  * `part_factory.py` — category / company resolution and the creation of
    Part, ManufacturerPart and SupplierPart rows;
  * `supplier_websites.py` — the best-effort supplier web lookups.

Modelling conventions:
  * Python exceptions are modelled with `Except String`, the error string
    naming the Python exception class raised (`IndexError`, `ValueError`,
    `KeyError`, `TypeError`).
  * The Django ORM is modelled as an explicit in-memory database `DB`
    holding lists of rows (insertion-ordered, as a QuerySet without
    explicit ordering iterates them here) and a fresh primary-key counter.
    `QuerySet.first()` is `List.find?`.
  * External collaborators that the repository only calls (the `datanorm`
    file parser, `requests`, the `re` regex engine, `hash_barcode`) are
    modelled as environment-supplied oracles (`Env`, `Net`).
  * "numeric string" is read as Python `str.isdigit` for ASCII digits:
    a non-empty string all of whose characters are `0`..`9`.
-/

namespace DatanormImport

/-- Python `int(c)` for a single character: the digit value, or a
`ValueError` for a non-digit. (Python's acceptance of non-ASCII Unicode
digits is not modelled; all claims concern ASCII data.) -/
def pyIntChar (c : Char) : Except String Nat :=
  if c.isDigit then .ok (c.toNat - 48) else .error "ValueError"

/-- Python `str.isdigit()`: non-empty and all characters are digits. -/
def isNumericStr (s : String) : Bool :=
  !s.data.isEmpty && s.data.all Char.isDigit

/-- The summation loop of `is_valid_ean_code`:
`for i, digit in enumerate(flipped_prefix): sum += int(digit) * int(factor[i])`.
Walking off the end of the factor string is an `IndexError`; a non-digit
character is a `ValueError` from `int`. -/
def ean_sum : List Char → List Char → Except String Nat
  | [], _ => .ok 0
  | _ :: _, [] => .error "IndexError"
  | d :: ds, f :: fs =>
    match pyIntChar d with
    | .error e => .error e
    | .ok x =>
      match ean_sum ds fs with
      | .error e => .error e
      | .ok rest => .ok (x * (f.toNat - 48) + rest)

/-- `DatanormBarcodePlugin.is_valid_ean_code` (datanorm_barcode_plugin.py,
lines 136-163), transcribed statement by statement.  Note that
`checksum = int(code[-1])` runs *before* the length test, so the empty
string raises `IndexError` and a non-digit last character raises
`ValueError` regardless of length. -/
def is_valid_ean_code (code : String) : Except String Bool :=
  -- factor = "131313131313"[::-1]
  let factor := "131313131313".data.reverse
  -- checksum = int(code[-1])
  match code.data.getLast? with
  | none => .error "IndexError"
  | some lastChar =>
    match pyIntChar lastChar with
    | .error e => .error e
    | .ok checksum =>
      -- flipped_prefix = code[:-1][::-1]
      let flippedPayload := code.data.dropLast.reverse
      if code.length = 13 ∨ code.length = 8 then
        match ean_sum flippedPayload factor with
        | .error e => .error e
        | .ok s =>
          let lastDigit := s % 10
          let computedChecksum := (10 - lastDigit) % 10
          .ok (decide (checksum = computedChecksum))
      else
        .ok false

/-- Alternating weight pattern on a factor-character list: `true` means the
next weight character must be `'3'`, `false` means `'1'`. -/
def altWeights : Bool → List Char → Bool
  | _, [] => true
  | b, f :: fs => (f = (if b then '3' else '1')) && altWeights (!b) fs

/-- Alternating weighted digit sum: the head digit is weighted 3 when the
flag is `true` and 1 when it is `false`, the weight alternating down the
list. -/
def gtinSumFrom : Bool → List Nat → Nat
  | _, [] => 0
  | b, d :: ds => d * (if b then 3 else 1) + gtinSumFrom (!b) ds

/-- Standard GTIN/EAN weighted sum of a payload given in *reversed* order
(identifier read right-to-left with the check digit removed): the digit
nearest the check digit is weighted 3, the weights alternating 3,1,3,1,… -/
def gtinSum (payloadRev : List Nat) : Nat := gtinSumFrom true payloadRev

/-- The standard GTIN/EAN check digit of a payload given in reversed
order. -/
def gtin_check_digit (payloadRev : List Nat) : Nat :=
  (10 - gtinSum payloadRev % 10) % 10

/-- The digits of the payload of `code` (all characters but the last),
reversed, as numbers. Meaningful on numeric strings. -/
def ean_payload_rev (code : String) : List Nat :=
  code.data.dropLast.reverse.map (fun c => c.toNat - 48)

/-- The last character of `code` as a digit value. Meaningful on numeric
strings. -/
def last_digit_of (code : String) : Nat :=
  (code.data.getLast?.getD '0').toNat - 48

/-- Modelled from the spec, §4.1 wording (the source of claim C8): "take
all characters except the last as the payload, reverse it, apply
alternating weights 1,3,1,3,... starting with weight 1 on the *first*
character of the reversed payload; sum digit*weight; the expected check
digit is (10 - (sum mod 10)) mod 10; valid iff it equals the last
character"; only 8- and 13-character numeric strings are accepted, and
parse failures yield false. The `false` starting flag of `gtinSumFrom`
puts weight 1 on the first character of the reversed payload. -/
def spec_validate (code : String) : Bool :=
  if isNumericStr code ∧ (code.length = 8 ∨ code.length = 13) then
    decide (last_digit_of code =
      (10 - gtinSumFrom false (ean_payload_rev code) % 10) % 10)
  else
    false

/-- Modelled from the spec as amended for claim C8: identical to
`spec_validate` except that the alternating weights start with weight 3
on the first character of the reversed payload. -/
def spec_validate_amended (code : String) : Bool :=
  if isNumericStr code ∧ (code.length = 8 ∨ code.length = 13) then
    decide (last_digit_of code =
      (10 - gtinSumFrom true (ean_payload_rev code) % 10) % 10)
  else
    false

/-! ## Generic string helpers (Python `in`, `str.lower`, `str.upper`,
`str.join`, `str.split`) -/

/-- Substring search on character lists: does `hay` contain `needle` as a
contiguous infix?  Models Python's `needle in hay` and Django's
`__contains` lookup. -/
def containsSub (hay needle : List Char) : Bool :=
  match hay with
  | [] => needle.isEmpty
  | _ :: t => needle.isPrefixOf hay || containsSub t needle

/-- Python `needle in hay` on strings. -/
def strContains (hay needle : String) : Bool :=
  containsSub hay.data needle.data

/-- Python `str.lower()` (ASCII; the plugin's case-insensitive matches). -/
def lowerStr (s : String) : String := ⟨s.data.map Char.toLower⟩

/-- Python `str.upper()` (ASCII case mapping; `str.upper` of non-ASCII
letters is not modelled, no claim depends on it). -/
def upperStr (s : String) : String := ⟨s.data.map Char.toUpper⟩

/-- Python `sep.join(parts)`. -/
def pyJoin (sep : String) : List String → String
  | [] => ""
  | [x] => x
  | x :: xs => x ++ sep ++ pyJoin sep xs

/-- Python `str.split()` with no argument: split on whitespace runs,
discarding empty fields. -/
def pySplitWs (s : String) : List String :=
  (s.split Char.isWhitespace).filter (fun t => t ≠ "")

/-! ## A small model of Python values for the supplier-website JSON data -/

/-- Python values as handled by `supplier_websites.py`: `None`, strings,
integers, lists and string-keyed dicts. -/
inductive PyVal where
  | pynone : PyVal
  | str : String → PyVal
  | int : Int → PyVal
  | list : List PyVal → PyVal
  | dict : List (String × PyVal) → PyVal

/-- Python truthiness (`if x:`). -/
def pyTruthy : PyVal → Bool
  | .pynone => false
  | .str s => s ≠ ""
  | .int n => n ≠ 0
  | .list l => !l.isEmpty
  | .dict d => !d.isEmpty

/-- Python `x[key]` for a string key: a value for a dict holding the key,
`KeyError` for a dict missing it, `TypeError` otherwise. -/
def pyGet (v : PyVal) (key : String) : Except String PyVal :=
  match v with
  | .dict d =>
    match d.find? (fun kv => kv.1 = key) with
    | some kv => .ok kv.2
    | none => .error "KeyError"
  | _ => .error "TypeError"

/-- Python `x[i]` for a numeric index: list indexing with `IndexError`
out of range, `TypeError` on non-sequences (a string-keyed dict raises
`KeyError`). -/
def pyIdx (v : PyVal) (i : Nat) : Except String PyVal :=
  match v with
  | .list l =>
    match l.get? i with
    | some x => .ok x
    | none => .error "IndexError"
  | .dict _ => .error "KeyError"
  | _ => .error "TypeError"

/-- Python `str(x)`.  Strings, integers and `None` render exactly; the
`repr`-style rendering of nested lists/dicts is abbreviated (no claim
exercises it). -/
def pyStr : PyVal → String
  | .str s => s
  | .int n => toString n
  | .pynone => "None"
  | .list _ => "[...]"
  | .dict _ => "\x7b...\x7d"

/-! ## supplier_websites.py -/

/-- The four concrete `SupplierWebsite` subclasses. -/
inductive SupplierKind where
  | buerkle | sonepar | wuerth | zander
deriving DecidableEq

/-- A `requests` response: HTTP status, `response.json()` (which may
itself raise on a malformed body) and `response.text`. -/
structure HttpResponse where
  status : Nat
  json : Except String PyVal
  text : String

/-- The network, modelled as deterministic per-supplier oracles keyed by
the SKU or URL requested (the repository treats `requests` as an external
collaborator).  `reSearch` models the external `re.search` call of
`WuerthWebsite.get_part_img_url`: the extracted `URL` group on a page
text, if the image-tag pattern matches. -/
structure Net where
  buerkle : String → HttpResponse
  zander : String → HttpResponse
  wuerthPage : String → HttpResponse
  reSearch : String → Option String
  imgGet : String → HttpResponse

/-- A `SupplierWebsite` instance: its class, `self.sku` and
`self.parameters`. -/
structure Website where
  kind : SupplierKind
  sku : String
  parameters : Option PyVal

/-- `BuerkleWebsite.fetch_part_parameters`: POST the GraphQL query; on
status 200 take `response.json()["data"]["getProductBySku"]` (each step
may raise), otherwise leave `parameters = None`. -/
def buerkle_fetch (net : Net) (sku : String) : Except String (Option PyVal) :=
  let response := net.buerkle sku
  if response.status = 200 then
    match response.json with
    | .error e => .error e
    | .ok j =>
      match pyGet j "data" with
      | .error e => .error e
      | .ok d =>
        match pyGet d "getProductBySku" with
        | .error e => .error e
        | .ok p => .ok (some p)
  else
    .ok none

/-- `ZanderWebsite.fetch_part_parameters`: after the session-priming login
GET, fetch the details URL; on status 200 take
`response.json()["result"]["artikel"]`, otherwise leave
`parameters = None`. -/
def zander_fetch (net : Net) (sku : String) : Except String (Option PyVal) :=
  let response := net.zander sku
  if response.status = 200 then
    match response.json with
    | .error e => .error e
    | .ok j =>
      match pyGet j "result" with
      | .error e => .error e
      | .ok r =>
        match pyGet r "artikel" with
        | .error e => .error e
        | .ok a => .ok (some a)
  else
    .ok none

/-- `fetch_part_parameters` dispatched on the concrete class
(`SoneparWebsite` and `WuerthWebsite` only record the SKU). -/
def fetch_part_parameters (net : Net) (kind : SupplierKind) (sku : String) :
    Except String Website :=
  match kind with
  | .buerkle =>
    match buerkle_fetch net sku with
    | .error e => .error e
    | .ok p => .ok ⟨kind, sku, p⟩
  | .zander =>
    match zander_fetch net sku with
    | .error e => .error e
    | .ok p => .ok ⟨kind, sku, p⟩
  | .sonepar => .ok ⟨kind, sku, none⟩
  | .wuerth => .ok ⟨kind, sku, none⟩

/-- `get_part_url` of each subclass (pure URL templates; `None` argument
defaults to `self.sku`).  Wuerth escapes `sku[:-5].strip()`. -/
def get_part_url (w : Website) (skuArg : Option String) : String :=
  let sku := skuArg.getD w.sku
  match w.kind with
  | .buerkle => "https://alexander-buerkle.com/de-de/produkt/" ++ sku ++ "/"
  | .sonepar => "https://www.sonepar.de/dp/" ++ sku
  | .wuerth =>
    let skuEscaped := ((sku.dropRight 5).trim).replace " " "%20"
    "https://www.wuerth.de/web/media/system/search_redirector.php?SearchResultType=all&EffectiveSearchTerm=&ApiLocale=de_DE&VisibleSearchTerm=" ++ skuEscaped
  | .zander => "https://zander.online/artikel/" ++ sku

/-- `get_part_img_url` of each subclass.  Sonepar returns `""`.  Wuerth
scrapes its product page, returning `""` on a non-200 status or a failed
regex match.  Buerkle and Zander re-fetch when `self.parameters is None`
and then subscript `self.parameters` *without checking it again*: if the
fetch left it `None` (e.g. a non-200 response), subscripting `None`
raises `TypeError`. -/
def get_part_img_url (net : Net) (w : Website) : Except String (PyVal × Website) :=
  match w.kind with
  | .sonepar => .ok (.str "", w)
  | .wuerth =>
    let response := net.wuerthPage w.sku
    if response.status = 200 then
      match net.reSearch response.text with
      | some url => .ok (.str url, w)
      | none => .ok (.str "", w)
    else
      .ok (.str "", w)
  | .buerkle =>
    let refetched : Except String Website :=
      match w.parameters with
      | none => fetch_part_parameters net .buerkle w.sku
      | some _ => .ok w
    match refetched with
    | .error e => .error e
    | .ok w1 =>
      match w1.parameters with
      | none => .error "TypeError"  -- None["image"]
      | some p =>
        match pyGet p "image" with
        | .error e => .error e
        | .ok img =>
          match pyIdx img 0 with
          | .error e => .error e
          | .ok first0 =>
            match pyGet first0 "url" with
            | .error e => .error e
            | .ok u => .ok (u, w1)
  | .zander =>
    let refetched : Except String Website :=
      match w.parameters with
      | none => fetch_part_parameters net .zander w.sku
      | some _ => .ok w
    match refetched with
    | .error e => .error e
    | .ok w1 =>
      match w1.parameters with
      | none => .error "TypeError"  -- None["artikel_prefix"]
      | some p =>
        match pyGet p "artikel_prefix" with
        | .error e => .error e
        | .ok pre =>
          match pyGet p "artikel_name" with
          | .error e => .error e
          | .ok nm =>
            match pyGet p "artikel_nr" with
            | .error e => .error e
            | .ok nr =>
              let imgName :=
                pyJoin "-" (pySplitWs (pyStr pre)) ++ "-" ++
                pyJoin "-" (pySplitWs (pyStr nm))
              .ok (.str ("https://media.zander.online/v1/media/" ++ pyStr nr
                    ++ "/0/600/" ++ imgName ++ ".jpg"), w1)

/-- `get_supplier_website` (supplier_websites.py, lines 154-173):
case-insensitive substring dispatch on the supplier name; constructing a
matched website runs its `fetch_part_parameters` (which may raise). -/
def get_supplier_website (net : Net) (supplier sku : String) :
    Except String (Option Website) :=
  let u := upperStr supplier
  if strContains u "WÜRTH" || strContains u "WUERTH" then
    match fetch_part_parameters net .wuerth sku with
    | .error e => .error e
    | .ok w => .ok (some w)
  else if strContains u "ZANDER" then
    match fetch_part_parameters net .zander sku with
    | .error e => .error e
    | .ok w => .ok (some w)
  else if strContains u "BÜRKLE" || strContains u "BUERKLE" then
    match fetch_part_parameters net .buerkle sku with
    | .error e => .error e
    | .ok w => .ok (some w)
  else if strContains u "SONEPAR" then
    match fetch_part_parameters net .sonepar sku with
    | .error e => .error e
    | .ok w => .ok (some w)
  else
    .ok none

/-! ## The persistence model (Django ORM rows used by the plugin) -/

/-- A `company.models.Company` row as used here. -/
structure Company where
  pk : Nat
  name : String
  is_supplier : Bool
  is_manufacturer : Bool
deriving DecidableEq

/-- A `part.models.PartCategory` row: name and optional parent pk. -/
structure PartCategory where
  pk : Nat
  name : String
  parent : Option Nat
deriving DecidableEq

/-- A `part.models.Part` row with the fields the plugin touches.  `image`
records whether an image file is attached (Django's falsy empty
`ImageField` is `false`). -/
structure Part where
  pk : Nat
  name : String
  category : Nat
  description : String
  keywords : String
  units : String
  purchaseable : Bool
  active : Bool
  barcode_hash : String
  barcode_data : String
  image : Bool
deriving DecidableEq

/-- A `company.models.ManufacturerPart` row. -/
structure ManufacturerPart where
  pk : Nat
  part : Nat
  manufacturer : Nat
  mpn : String
deriving DecidableEq

/-- A supplier price break (`add_price_break(quantity, price)`); the price
is a `Money` value kept as amount and currency. -/
structure PriceBreak where
  quantity : Nat
  amount : Int
  currency : String
deriving DecidableEq

/-- A `company.models.SupplierPart` row.  `manufacturer_part` is the
nullable foreign key backfilled by
`create_all_parts_from_datanorm_items`. -/
structure SupplierPart where
  pk : Nat
  part : Nat
  supplier : Nat
  sku : String
  link : String
  pack_quantity : String
  updated : String
  manufacturer_part : Option Nat
  price_breaks : List PriceBreak
deriving DecidableEq

/-- The persistence state: insertion-ordered row lists per model and one
fresh primary-key counter (`save()` of a new object appends a row with a
fresh pk; `save()` of an existing object rewrites the rows with its
pk). -/
structure DB where
  categories : List PartCategory
  companies : List Company
  parts : List Part
  manufacturer_parts : List ManufacturerPart
  supplier_parts : List SupplierPart
  next_pk : Nat
deriving DecidableEq

/-- The empty database. -/
def emptyDB : DB := ⟨[], [], [], [], [], 1⟩

/-- `part.image.save(...)` on the row with the given pk. -/
def setPartImage (db : DB) (partPk : Nat) : DB :=
  { db with parts := db.parts.map (fun p =>
      if p.pk = partPk then { p with image := true } else p) }

/-- `part.assign_barcode(hash, raw)` followed by the implied save, on the
row with the given pk. -/
def assignBarcode (db : DB) (partPk : Nat) (hash raw : String) : DB :=
  { db with parts := db.parts.map (fun p =>
      if p.pk = partPk then { p with barcode_hash := hash, barcode_data := raw } else p) }

/-- Whether the part row with the given pk currently has an image
(`if not part.image:`). -/
def partHasImage (db : DB) (partPk : Nat) : Bool :=
  ((db.parts.find? (fun p => p.pk = partPk)).map Part.image).getD false

/-! ## datanorm `DatanormItem` records

The `datanorm` package is an external collaborator (the catalog-file
parser); a populated record is modelled by its fields as consumed by the
plugin.  `manufacturer_name` is `Option String` because
`create_manufacturer_part_from_datanorm_item` compares it against
`None`. -/

/-- A populated DATANORM record. -/
structure DatanormItem where
  tag : String
  item_name : String
  description : String
  matchcode : String
  ean : String
  unit_of_measure : String
  product_group_name : String
  main_product_group_name : String
  manufacturer_name : Option String
  alt_article_id : String
  article_id : String
  minimum_packaging_quantity : String
  price_unit : Nat
  price_wholesale : Int
  currency : String
  date : String
  is_valid : Bool
deriving DecidableEq

/-! ## part_factory.py -/

/-- `PartFactory.format_si_units` (part_factory.py, lines 32-44). -/
def format_si_units (unit : String) : String :=
  let upperUnit := upperStr unit
  if upperUnit = "STCK" ∨ upperUnit = "STK" then ""
  else if upperUnit = "MTR" ∨ upperUnit = "M" ∨ upperUnit = "LFM" then "m"
  else if upperUnit = "VE" then ""
  else if upperUnit = "KG" then "kg"
  else ""

/-- `PartFactory.get_category_by_name` (part_factory.py, lines 73-100).
With an empty parent name the lookup is by name alone (first row with
that name, whatever its parent); otherwise the parent is found-or-created
first (by name alone) and the category is scoped to that parent's pk. -/
def get_category_by_name (db : DB) (category_name : String)
    (parent_name : String) : PartCategory × DB :=
  if parent_name = "" then
    match db.categories.find? (fun c => c.name = category_name) with
    | some c => (c, db)
    | none =>
      let c : PartCategory := ⟨db.next_pk, category_name, none⟩
      (c, { db with categories := db.categories ++ [c], next_pk := db.next_pk + 1 })
  else
    let parentAndDb : PartCategory × DB :=
      match db.categories.find? (fun c => c.name = parent_name) with
      | some p => (p, db)
      | none =>
        let p : PartCategory := ⟨db.next_pk, parent_name, none⟩
        (p, { db with categories := db.categories ++ [p], next_pk := db.next_pk + 1 })
    let parent := parentAndDb.1
    let db1 := parentAndDb.2
    match db1.categories.find? (fun c =>
        c.name = category_name ∧ c.parent = some parent.pk) with
    | some c => (c, db1)
    | none =>
      let c : PartCategory := ⟨db1.next_pk, category_name, some parent.pk⟩
      (c, { db1 with categories := db1.categories ++ [c], next_pk := db1.next_pk + 1 })

/-- `PartFactory.get_company_by_name` (part_factory.py, lines 102-132).
Lookup 1 is `name__contains=company_name` — the *stored* name contains the
requested one; lookup 2 is `name__iexact`.  A hit gets the requested role
flags OR-merged and saved; a miss creates the company with exactly the
requested flags. -/
def get_company_by_name (db : DB) (company_name : String)
    (set_supplier : Bool) (set_manufacturer : Bool) :
    Company × DB :=
  let found :=
    match db.companies.find? (fun c => strContains c.name company_name) with
    | some c => some c
    | none => db.companies.find? (fun c => lowerStr c.name = lowerStr company_name)
  match found with
  | none =>
    let c : Company := ⟨db.next_pk, company_name, set_supplier, set_manufacturer⟩
    (c, { db with companies := db.companies ++ [c], next_pk := db.next_pk + 1 })
  | some c =>
    let c' : Company := { c with
      is_supplier := c.is_supplier || set_supplier,
      is_manufacturer := c.is_manufacturer || set_manufacturer }
    (c', { db with companies := db.companies.map (fun x => if x.pk = c.pk then c' else x) })

/-- `PartFactory.create_empty_part_from_ean` (part_factory.py, lines
46-71).  `hash` is InvenTree's external `hash_barcode`. -/
def create_empty_part_from_ean (ean : String) (default_category : String)
    (hash : String → String) (db : DB) : Part × DB :=
  let name := "Unbekanntes Teil (EAN:" ++ ean ++ ")"
  let catAndDb := get_category_by_name db default_category ""
  let category := catAndDb.1
  let db1 := catAndDb.2
  let description := "Bitte Teil manuell vervollständigen! EAN: " ++ ean
  let part : Part :=
    { pk := db1.next_pk, name := name, category := category.pk,
      description := description, keywords := ean, units := "",
      purchaseable := true, active := true,
      barcode_hash := hash ean, barcode_data := ean, image := false }
  (part, { db1 with parts := db1.parts ++ [part], next_pk := db1.next_pk + 1 })

/-- `PartFactory.create_part_from_datanorm_item` (part_factory.py, lines
134-165): three-way category resolution, keywords from the stripped
matchcode and the EAN (empty entries dropped), SI-normalised unit, flags
set, barcode attached, saved. -/
def create_part_from_datanorm_item (di : DatanormItem)
    (default_category : String) (hash : String → String) (db : DB) :
    Part × DB :=
  let catAndDb :=
    if di.product_group_name = "" ∧ di.main_product_group_name = "" then
      get_category_by_name db default_category ""
    else if di.product_group_name = "" then
      get_category_by_name db di.main_product_group_name ""
    else
      get_category_by_name db di.product_group_name di.main_product_group_name
  let category := catAndDb.1
  let db1 := catAndDb.2
  let keywords := pyJoin ","
    (([di.matchcode.trim, di.ean] : List String).filter (fun k => k ≠ ""))
  let part : Part :=
    { pk := db1.next_pk, name := di.item_name, category := category.pk,
      description := di.description, keywords := keywords,
      units := format_si_units di.unit_of_measure,
      purchaseable := true, active := true,
      barcode_hash := hash di.ean, barcode_data := di.ean, image := false }
  (part, { db1 with parts := db1.parts ++ [part], next_pk := db1.next_pk + 1 })

/-- `PartFactory.create_manufacturer_part_from_datanorm_item`
(part_factory.py, lines 167-189): only an item whose `manufacturer_name`
is not `None` creates a row (an empty-string name still does); the
manufacturer company is resolved with `set_manufacturer=True`. -/
def create_manufacturer_part_from_datanorm_item (di : DatanormItem)
    (partPk : Nat) (db : DB) : Option ManufacturerPart × DB :=
  match di.manufacturer_name with
  | none => (none, db)
  | some manufacturerName =>
    let compAndDb := get_company_by_name db manufacturerName false true
    let manufacturer := compAndDb.1
    let db1 := compAndDb.2
    let mp : ManufacturerPart :=
      ⟨db1.next_pk, partPk, manufacturer.pk, di.alt_article_id⟩
    (some mp,
      { db1 with manufacturer_parts := db1.manufacturer_parts ++ [mp],
                 next_pk := db1.next_pk + 1 })

/-- `PartFactory.create_supplier_part_from_datanorm_item` (part_factory.py,
lines 191-224): the supplier company is resolved from the item's *tag*
with `set_supplier=True`; a recognised supplier website supplies the link
and — if the part has no image yet — an image fetch
(`fetch_and_save_image_to_part`, which may raise); the row is created with
one price break and a `None` manufacturer link. -/
def fetch_and_save_image_to_part (net : Net) (db : DB) (partPk : Nat)
    (w : Website) : Except String DB :=
  match get_part_img_url net w with
  | .error e => .error e
  | .ok (imgUrl, _) =>
    if pyTruthy imgUrl then
      match imgUrl with
      | .str s =>
        if (net.imgGet s).status = 200 then .ok (setPartImage db partPk)
        else .ok db
      | _ => .error "TypeError"  -- urlparse of a non-string
    else
      .ok db

/-- See `fetch_and_save_image_to_part` above; this is the supplier-part
creation itself. -/
def create_supplier_part_from_datanorm_item (net : Net) (di : DatanormItem)
    (partPk : Nat) (db : DB) : Except String (SupplierPart × DB) :=
  let supplierName := di.tag
  let sku := di.article_id
  let compAndDb := get_company_by_name db supplierName true false
  let supplier := compAndDb.1
  let db1 := compAndDb.2
  let linkAndDb : Except String (String × DB) :=
    match get_supplier_website net supplierName sku with
    | .error e => .error e
    | .ok none => .ok ("", db1)
    | .ok (some w) =>
      let link := get_part_url w none
      if partHasImage db1 partPk then .ok (link, db1)
      else
        match fetch_and_save_image_to_part net db1 partPk w with
        | .error e => .error e
        | .ok db2 => .ok (link, db2)
  match linkAndDb with
  | .error e => .error e
  | .ok (link, db2) =>
    let sp : SupplierPart :=
      { pk := db2.next_pk, part := partPk, supplier := supplier.pk,
        sku := sku, link := link,
        pack_quantity := di.minimum_packaging_quantity,
        updated := di.date, manufacturer_part := none,
        price_breaks := [⟨di.price_unit, di.price_wholesale, di.currency⟩] }
    .ok (sp, { db2 with supplier_parts := db2.supplier_parts ++ [sp],
                        next_pk := db2.next_pk + 1 })

/-! ## datanorm_barcode_plugin.py -/

/-- The plugin environment: the plugin settings as stored (strings
compared against `"True"`), InvenTree's external `hash_barcode`, the
network, and the correlation oracle `items_for` standing for
`search_ean_in_datanorm_files` (which drives the external `datanorm`
parser over the configured attachments and returns the valid matched
records in enumeration order). -/
structure Env where
  net : Net
  hash : String → String
  items_for : String → List DatanormItem
  default_category : String
  use_default_category : String
  reassign : String

/-- `DatanormBarcodePlugin.overwrite_category` (datanorm_barcode_plugin.py,
lines 315-325): replace every record's product-group name and blank the
main-product-group name. -/
def overwrite_category (items : List DatanormItem) (new_category : String) :
    List DatanormItem :=
  items.map (fun di => { di with
    product_group_name := new_category,
    main_product_group_name := "" })

/-- The per-record loop of `create_all_parts_from_datanorm_items`
(datanorm_barcode_plugin.py, lines 280-290): while no manufacturer part
exists yet, each record may create the (single) one; every record
unconditionally creates a supplier part.  Returns the manufacturer part
(if any), the pks of the supplier parts created in order, and the
database. -/
def create_parts_loop (net : Net) (partPk : Nat) :
    List DatanormItem → Option ManufacturerPart → DB →
    Except String (Option ManufacturerPart × List Nat × DB)
  | [], mPart, db => .ok (mPart, [], db)
  | di :: rest, mPart, db =>
    let step : Option ManufacturerPart × DB :=
      match mPart with
      | none => create_manufacturer_part_from_datanorm_item di partPk db
      | some mp => (some mp, db)
    match create_supplier_part_from_datanorm_item net di partPk step.2 with
    | .error e => .error e
    | .ok (sp, db2) =>
      match create_parts_loop net partPk rest step.1 db2 with
      | .error e => .error e
      | .ok (mPart', spPks, db3) => .ok (mPart', sp.pk :: spPks, db3)

/-- The backfill of `create_all_parts_from_datanorm_items`
(datanorm_barcode_plugin.py, lines 292-295): set every created supplier
part's `manufacturer_part` to the one manufacturer part and save, one
row-update per supplier part. -/
def backfill_manufacturer (spPks : List Nat) (mpPk : Nat) (db : DB) : DB :=
  spPks.foldl (fun d k =>
    { d with supplier_parts := d.supplier_parts.map (fun sp =>
        if sp.pk = k then { sp with manufacturer_part := some mpPk } else sp) })
    db

/-- `DatanormBarcodePlugin.create_all_parts_from_datanorm_items`
(datanorm_barcode_plugin.py, lines 259-296), split into `resolve_base_part`
(the base-part step) followed by the per-record loop and the manufacturer
backfill.  The part is created with `PartFactory`'s default
`default_category = "Fallback Category"`, which the plugin does not
override.  The returned part is the (possibly updated) stored row; an
empty record list raises `IndexError` (`datanorm_items[0]`). -/
def resolve_base_part (first : DatanormItem) (hash : String → String)
    (db : DB) : Part × DB :=
  match db.parts.find? (fun p => p.name = first.item_name) with
  | none => create_part_from_datanorm_item first "Fallback Category" hash db
  | some p =>
    let p' := { p with keywords := p.keywords ++ "," ++ first.ean }
    (p', { db with parts := db.parts.map (fun x => if x.pk = p.pk then p' else x) })

/-- See `create_all_parts_from_datanorm_items` below; `resolve_base_part`
is its first step (datanorm_barcode_plugin.py, lines 270-278): an existing
part with the first record's name gets the EAN appended to its keywords,
otherwise the part is created from the first record. -/
def create_all_parts_from_datanorm_items (net : Net) (hash : String → String)
    (items : List DatanormItem) (db : DB) : Except String (Part × DB) :=
  match items with
  | [] => .error "IndexError"
  | first :: _ =>
    let partAndDb : Part × DB := resolve_base_part first hash db
    let part0 := partAndDb.1
    let db1 := partAndDb.2
    match create_parts_loop net part0.pk items none db1 with
    | .error e => .error e
    | .ok (mPart, spPks, db2) =>
      let db3 :=
        match mPart with
        | some mp => backfill_manufacturer spPks mp.pk db2
        | none => db2
      .ok (((db3.parts.find? (fun p => p.pk = part0.pk)).getD part0), db3)

/-- `DatanormBarcodePlugin.create_all_parts` (datanorm_barcode_plugin.py,
lines 165-187): correlate, optionally overwrite all categories with the
default, then build the full graph (records found) or the placeholder
part (none found). -/
def create_all_parts (env : Env) (db : DB) (ean : String) :
    Except String (Part × DB) :=
  let items0 := env.items_for ean
  let items :=
    if env.use_default_category = "True" then
      overwrite_category items0 env.default_category
    else items0
  if items.length > 0 then
    create_all_parts_from_datanorm_items env.net env.hash items db
  else
    .ok (create_empty_part_from_ean ean env.default_category env.hash db)

/-- `DatanormBarcodePlugin.scan` (datanorm_barcode_plugin.py, lines
85-110).  `search_for_first_part_with_keyword` is
`Part.objects.filter(keywords__contains=...).first()`, i.e. the first
stored part whose keywords contain the scanned code as a substring.  The
result models `format_matched_response`: the matched part's pk, or
`none`. -/
def scan (env : Env) (db : DB) (barcode_data : String) :
    Except String (Option Nat × DB) :=
  match is_valid_ean_code barcode_data with
  | .error e => .error e
  | .ok false => .ok (none, db)
  | .ok true =>
    match db.parts.find? (fun p => strContains p.keywords barcode_data) with
    | some part =>
      if env.reassign = "True" && part.barcode_hash = "" then
        .ok (some part.pk, assignBarcode db part.pk (env.hash barcode_data) barcode_data)
      else
        .ok (some part.pk, db)
    | none =>
      match create_all_parts env db barcode_data with
      | .error e => .error e
      | .ok (part, db1) => .ok (some part.pk, db1)

/-! ## Concrete fixtures for closed instances -/

/-- Keyed part projection: pk and keywords of every part row, in order
(the data `search_for_first_part_with_keyword` depends on). -/
def partsKw (db : DB) : List (Nat × String) :=
  db.parts.map (fun p => (p.pk, p.keywords))

/-- An HTTP failure response. -/
def failResponse : HttpResponse := ⟨500, .error "JSONDecodeError", ""⟩

/-- A network on which every request fails with HTTP 500 and no regex
match succeeds. -/
def offlineNet : Net :=
  ⟨fun _ => failResponse, fun _ => failResponse, fun _ => failResponse,
   fun _ => none, fun _ => failResponse⟩

/-- A stand-in for InvenTree's `hash_barcode`. -/
def exHash (s : String) : String := "h:" ++ s

/-- Fallback part value for total extraction from `Except`. -/
def defaultPart : Part := ⟨0, "", 0, "", "", "", false, false, "", "", false⟩

/-- A fully populated DATANORM record used by the concrete instances. -/
def baseItem : DatanormItem :=
  { tag := "S1", item_name := "Part A", description := "A part",
    matchcode := "MC1", ean := "4012195583943", unit_of_measure := "Stk",
    product_group_name := "G1", main_product_group_name := "M1",
    manufacturer_name := none, alt_article_id := "A1", article_id := "SKU1",
    minimum_packaging_quantity := "1", price_unit := 1,
    price_wholesale := 100, currency := "EUR", date := "2024-01-01",
    is_valid := true }

/-- C3 counterexample record: `manufacturer_name` is the *empty string*
(present but not non-empty). -/
def c3item : DatanormItem := { baseItem with manufacturer_name := some "" }

/-- The C3 counterexample run. -/
def c3run : Except String (Part × DB) :=
  create_all_parts_from_datanorm_items offlineNet exHash [c3item] emptyDB

/-- Second C3 witness record: a different supplier tag carrying a
manufacturer name. -/
def c3item2 : DatanormItem :=
  { baseItem with
    tag := "S2", manufacturer_name := some "HAGER",
    alt_article_id := "A2", article_id := "SKU2" }

/-- C3 witness records: the first carries no manufacturer name, the second
(different supplier tag) carries one. -/
def c3wItems : List DatanormItem := [baseItem, c3item2]

/-- The C3 witness run and its components. -/
def c3wRun : Except String (Part × DB) :=
  create_all_parts_from_datanorm_items offlineNet exHash c3wItems emptyDB

/-- The part of the C3 witness run. -/
def c3wPart : Part :=
  match c3wRun with
  | .ok (p, _) => p
  | .error _ => defaultPart

/-- The database of the C3 witness run. -/
def c3wDB : DB :=
  match c3wRun with
  | .ok (_, d) => d
  | .error _ => emptyDB

/-- C4 witness environment: no DATANORM files match, settings off. -/
def c4Env : Env :=
  ⟨offlineNet, exHash, fun _ => [], "DC", "False", "False"⟩

/-- First C4 witness scan. -/
def c4run1 : Except String (Option Nat × DB) := scan c4Env emptyDB "90311017"

/-- Database after the first C4 witness scan. -/
def c4db1 : DB :=
  match c4run1 with
  | .ok (_, d) => d
  | .error _ => emptyDB

/-- C5 counterexample database: one stored company named "ACME". -/
def c5db : DB := ⟨[], [⟨1, "ACME", false, false⟩], [], [], [], 2⟩

/-- C6 witness database: one supplier-only company. -/
def c6db : DB := ⟨[], [⟨1, "Acme GmbH", true, false⟩], [], [], [], 2⟩

/-- C7 counterexample database: a category "X" that already exists *as a
child* of "Y". -/
def c7db : DB := ⟨[⟨1, "Y", none⟩, ⟨2, "X", some 1⟩], [], [], [], [], 3⟩

/-- C7 counterexample record: empty product-group name, main group "X". -/
def c7item : DatanormItem :=
  { baseItem with product_group_name := "", main_product_group_name := "X" }

/-! ## Helper lemmas -/

/-- The last element given by `getLast?` is a member of the list. -/
theorem mem_of_getLast?_eq {l : List Char} {a : Char}
    (h : l.getLast? = some a) : a ∈ l := by
  have hne : l ≠ [] := by rintro rfl; simp at h
  have h2 := List.getLast?_eq_getLast l hne
  rw [h2, Option.some_inj] at h
  have := List.getLast_mem hne
  rwa [h] at this

/-- Unfolding of `isNumericStr`. -/
theorem isNumericStr_iff {s : String} :
    isNumericStr s = true ↔ s.data ≠ [] ∧ ∀ c ∈ s.data, c.isDigit = true := by
  simp [isNumericStr, List.isEmpty_iff, List.all_eq_true]

/-- The summation loop computes the alternating weighted sum whenever all
payload characters are digits, the factor list alternates as recorded by
`altWeights`, and the factor list is long enough. -/
theorem ean_sum_ok (b : Bool) (ds fs : List Char)
    (hd : ∀ c ∈ ds, c.isDigit = true) (hw : altWeights b fs = true)
    (hl : ds.length ≤ fs.length) :
    ean_sum ds fs = .ok (gtinSumFrom b (ds.map (fun c => c.toNat - 48))) := by
  induction ds generalizing b fs with
  | nil => simp [ean_sum, gtinSumFrom]
  | cons d ds ih =>
    cases fs with
    | nil => simp at hl
    | cons f fs =>
      have hdd : d.isDigit = true := hd d (by simp)
      have hds : ∀ c ∈ ds, c.isDigit = true := fun c hc => hd c (by simp [hc])
      have hw2 : (f = (if b then '3' else '1')) ∧ altWeights (!b) fs = true := by
        simpa [altWeights, Bool.and_eq_true] using hw
      have hl2 : ds.length ≤ fs.length := by simpa using hl
      simp only [ean_sum, pyIntChar, hdd, if_pos]
      rw [ih (!b) fs hds hw2.2 hl2]
      simp only [List.map_cons, gtinSumFrom]
      congr 2
      rw [hw2.1]
      cases b <;> rfl

/-- Evaluation of `is_valid_ean_code` on a numeric string of accepted
length: the standard alternating-weight comparison. -/
theorem is_valid_ean_code_eval (code : String)
    (hnum : isNumericStr code = true)
    (hlen : code.length = 8 ∨ code.length = 13) :
    is_valid_ean_code code =
      .ok (decide (last_digit_of code =
        (10 - gtinSumFrom true (ean_payload_rev code) % 10) % 10)) := by
  obtain ⟨hne, hdig⟩ := isNumericStr_iff.mp hnum
  obtain ⟨c, hc⟩ := Option.isSome_iff_exists.mp (List.getLast?_isSome.mpr hne)
  have hcd : c.isDigit = true := hdig c (mem_of_getLast?_eq hc)
  have hlen2 : code.length = 13 ∨ code.length = 8 := hlen.symm
  have hdata : code.length = code.data.length := rfl
  have hlf : code.data.dropLast.reverse.length ≤
      ("131313131313".data.reverse).length := by
    simp only [List.length_reverse, List.length_dropLast]
    have h12 : ("131313131313".data).length = 12 := by decide
    simp only [List.length_reverse, h12]
    omega
  have hdigs : ∀ ch ∈ code.data.dropLast.reverse, ch.isDigit = true := by
    intro ch hch
    exact hdig ch (List.dropLast_subset _ (List.mem_reverse.mp hch))
  have hw : altWeights true ("131313131313".data.reverse) = true := by decide
  simp only [is_valid_ean_code, hc, pyIntChar, hcd, if_pos, if_true, hlen2,
    ean_sum_ok true _ _ hdigs hw hlf]
  simp [last_digit_of, hc, ean_payload_rev]

/-- Evaluation of `is_valid_ean_code` on a numeric string of rejected
length: plain `false`. -/
theorem is_valid_ean_code_wrong_length (code : String)
    (hnum : isNumericStr code = true)
    (hlen : ¬(code.length = 8 ∨ code.length = 13)) :
    is_valid_ean_code code = .ok false := by
  obtain ⟨hne, hdig⟩ := isNumericStr_iff.mp hnum
  obtain ⟨c, hc⟩ := Option.isSome_iff_exists.mp (List.getLast?_isSome.mpr hne)
  have hcd : c.isDigit = true := hdig c (mem_of_getLast?_eq hc)
  have hlen2 : ¬(code.length = 13 ∨ code.length = 8) := fun h => hlen h.symm
  simp [is_valid_ean_code, hc, pyIntChar, hcd, hlen2]

/-! ## Claim C1 -/

/-- C1: for every 8- or 13-character numeric string, `is_valid_ean_code`
returns true iff the last character equals the standard GTIN/EAN check
digit of the preceding payload; for every numeric string of any other
length it returns false; and the cited examples evaluate as stated. -/
theorem ean_validation_matches_standard :
    (∀ code : String, isNumericStr code = true →
      ((code.length = 8 ∨ code.length = 13) →
        is_valid_ean_code code =
          .ok (decide (last_digit_of code = gtin_check_digit (ean_payload_rev code))))
      ∧ (¬(code.length = 8 ∨ code.length = 13) →
        is_valid_ean_code code = .ok false))
    ∧ is_valid_ean_code "3250614315336" = .ok true
    ∧ is_valid_ean_code "1234567890123" = .ok false
    ∧ is_valid_ean_code "12323" = .ok false := by
  refine ⟨fun code hnum =>
    ⟨fun hlen => ?_, fun hlen => is_valid_ean_code_wrong_length code hnum hlen⟩,
    rfl, rfl, rfl⟩
  rw [is_valid_ean_code_eval code hnum hlen]
  rfl

/-- C1 witness at the concrete EAN-8 "90311017". -/
theorem ean_validation_matches_standard_witness :
    is_valid_ean_code "90311017" =
      .ok (decide (last_digit_of "90311017" =
        gtin_check_digit (ean_payload_rev "90311017"))) :=
  (ean_validation_matches_standard.1 "90311017" (by decide)).1 (by decide)

/-! ## Claim C2 -/

/-- C2 counterexample: `is_valid_ean_code` is *not* total — on the empty
string (length not 8 or 13) it raises `IndexError` at
`checksum = int(code[-1])` instead of returning false. -/
theorem ean_validation_raises_on_empty :
    is_valid_ean_code "" = .error "IndexError" := rfl

/-- C2 (amended): `is_valid_ean_code` returns false (rather than raising)
for every *numeric* string whose length is not 8 or 13; however, the empty
string raises `IndexError`, and any string whose last character is not a
digit raises `ValueError`, both before the length test. -/
theorem ean_validation_fails_closed_only_for_numeric :
    (∀ code : String, isNumericStr code = true →
      ¬(code.length = 8 ∨ code.length = 13) → is_valid_ean_code code = .ok false)
    ∧ is_valid_ean_code "" = .error "IndexError"
    ∧ (∀ (code : String) (c : Char), code.data.getLast? = some c →
        c.isDigit = false → is_valid_ean_code code = .error "ValueError") := by
  refine ⟨fun code hnum hlen => is_valid_ean_code_wrong_length code hnum hlen,
    rfl, fun code c hc hcd => ?_⟩
  simp [is_valid_ean_code, hc, pyIntChar, hcd]

/-- C2 witness: a numeric string of length 3 yields `false` without an
exception. -/
theorem ean_validation_fails_closed_only_for_numeric_witness :
    is_valid_ean_code "123" = .ok false :=
  ean_validation_fails_closed_only_for_numeric.1 "123" (by decide) (by decide)

/-! ## Claim C8 -/

/-- C8 counterexample: the validator does not implement the §4.1 wording.
On "3250614315336" — which the spec itself lists as valid — the code
accepts, while the §4.1 algorithm (weights starting with 1 on the first
character of the *reversed* payload) rejects. -/
theorem ean_validator_not_spec_weighting :
    is_valid_ean_code "3250614315336" = .ok true ∧
    spec_validate "3250614315336" = false := by
  exact ⟨rfl, by decide⟩

/-- C8 (amended): on every 8- or 13-character numeric string the validator
implements the §4.1 algorithm with the weight order amended to start with
weight 3 on the first character of the reversed payload. -/
theorem ean_validator_matches_amended_spec (code : String)
    (hnum : isNumericStr code = true)
    (hlen : code.length = 8 ∨ code.length = 13) :
    is_valid_ean_code code = .ok (spec_validate_amended code) := by
  rw [is_valid_ean_code_eval code hnum hlen]
  have : (isNumericStr code = true) ∧ (code.length = 8 ∨ code.length = 13) :=
    ⟨hnum, hlen⟩
  simp [spec_validate_amended, hnum, hlen]

/-- C8 witness at the concrete EAN-8 "90311017". -/
theorem ean_validator_matches_amended_spec_witness :
    is_valid_ean_code "90311017" = .ok (spec_validate_amended "90311017") :=
  ean_validator_matches_amended_spec "90311017" (by decide) (by decide)

/-! ## Claim C5 -/

/-- C5 counterexample: the stored name "ACME" is contained in the
requested name "ACME GmbH" (and the two are not case-insensitively
equal), yet `get_company_by_name` creates a *second* company instead of
resolving to the stored one — the containment test only runs in the other
direction. -/
theorem company_lookup_not_bidirectional :
    strContains "ACME GmbH" "ACME" = true ∧
    (get_company_by_name c5db "ACME GmbH" true false).2.companies.length = 2 :=
  ⟨by decide, by decide⟩

/-- C5 (amended): company lookup resolves, in order, (1) to the first
stored company whose *stored* name contains the requested name
(case-sensitive), else (2) to the first stored company whose name matches
case-insensitively; only when both fail is a new company (with exactly the
requested name and flags) created.  Containment of a stored name inside
the requested name does not match. -/
theorem get_company_by_name_lookup (db : DB) (nm : String) (sup man : Bool) :
    match db.companies.find? (fun c => strContains c.name nm) with
    | some c0 =>
        (get_company_by_name db nm sup man).1.pk = c0.pk ∧
        (get_company_by_name db nm sup man).1.name = c0.name ∧
        (get_company_by_name db nm sup man).2.companies.length = db.companies.length
    | none =>
      match db.companies.find? (fun c => lowerStr c.name = lowerStr nm) with
      | some c0 =>
          (get_company_by_name db nm sup man).1.pk = c0.pk ∧
          (get_company_by_name db nm sup man).1.name = c0.name ∧
          (get_company_by_name db nm sup man).2.companies.length = db.companies.length
      | none =>
          (get_company_by_name db nm sup man).1.name = nm ∧
          (get_company_by_name db nm sup man).1.is_supplier = sup ∧
          (get_company_by_name db nm sup man).1.is_manufacturer = man ∧
          (get_company_by_name db nm sup man).2.companies =
            db.companies ++ [(get_company_by_name db nm sup man).1] := by
  cases h1 : db.companies.find? (fun c => strContains c.name nm) with
  | some c0 => simp [get_company_by_name, h1]
  | none =>
    cases h2 : db.companies.find? (fun c => lowerStr c.name = lowerStr nm) with
    | some c0 => simp [get_company_by_name, h1, h2]
    | none => simp [get_company_by_name, h1, h2]

/-! ## Claim C6 -/

/-- C6: role flags are monotone.  In a database with distinct company
primary keys, any single resolution leaves every stored company's pk and
name in place and never clears a role flag that was true; and the cited
scenario — resolving "Acme GmbH" as supplier-only and then "ACME GMBH"
(different casing) as manufacturer-only from an empty store — yields
exactly one company with both flags true. -/
theorem company_role_flags_monotone :
    (∀ (db : DB) (nm : String) (sup man : Bool) (c0 : Company),
        (db.companies.map Company.pk).Nodup → c0 ∈ db.companies →
        ∃ c1 ∈ (get_company_by_name db nm sup man).2.companies,
          c1.pk = c0.pk ∧ c1.name = c0.name ∧
          (c0.is_supplier = true → c1.is_supplier = true) ∧
          (c0.is_manufacturer = true → c1.is_manufacturer = true))
    ∧ ((get_company_by_name
          ((get_company_by_name emptyDB "Acme GmbH" true false).2)
          "ACME GMBH" false true).2.companies.map
            (fun c => (c.name, c.is_supplier, c.is_manufacturer))
        = [("Acme GmbH", true, true)]) := by
  constructor
  · intro db nm sup man c0 hnd hc0
    unfold get_company_by_name
    cases h1 : db.companies.find? (fun c => strContains c.name nm) with
    | some c =>
      have hcm := List.mem_of_find?_eq_some h1
      refine ⟨if c0.pk = c.pk then
          { c with is_supplier := c.is_supplier || sup,
                   is_manufacturer := c.is_manufacturer || man } else c0, ?_, ?_⟩
      · simp only [h1]
        by_cases hpk : c0.pk = c.pk
        · simpa [hpk] using List.mem_map_of_mem
            (fun x => if x.pk = c.pk then
              { c with is_supplier := c.is_supplier || sup,
                       is_manufacturer := c.is_manufacturer || man } else x) hc0
        · simpa [hpk] using List.mem_map_of_mem
            (fun x => if x.pk = c.pk then
              { c with is_supplier := c.is_supplier || sup,
                       is_manufacturer := c.is_manufacturer || man } else x) hc0
      · by_cases hpk : c0.pk = c.pk
        · have hce : c0 = c := List.inj_on_of_nodup_map hnd hc0 hcm hpk
          subst hce
          simp only [if_pos rfl]
          exact ⟨rfl, rfl, fun h => by simp [h], fun h => by simp [h]⟩
        · simp [hpk]
    | none =>
      cases h2 : db.companies.find? (fun c => lowerStr c.name = lowerStr nm) with
      | some c =>
        have hcm := List.mem_of_find?_eq_some h2
        refine ⟨if c0.pk = c.pk then
            { c with is_supplier := c.is_supplier || sup,
                     is_manufacturer := c.is_manufacturer || man } else c0, ?_, ?_⟩
        · simp only [h1, h2]
          by_cases hpk : c0.pk = c.pk
          · simpa [hpk] using List.mem_map_of_mem
              (fun x => if x.pk = c.pk then
                { c with is_supplier := c.is_supplier || sup,
                         is_manufacturer := c.is_manufacturer || man } else x) hc0
          · simpa [hpk] using List.mem_map_of_mem
              (fun x => if x.pk = c.pk then
                { c with is_supplier := c.is_supplier || sup,
                         is_manufacturer := c.is_manufacturer || man } else x) hc0
        · by_cases hpk : c0.pk = c.pk
          · have hce : c0 = c := List.inj_on_of_nodup_map hnd hc0 hcm hpk
            subst hce
            simp only [if_pos rfl]
            exact ⟨rfl, rfl, fun h => by simp [h], fun h => by simp [h]⟩
          · simp [hpk]
      | none =>
        refine ⟨c0, ?_, by simp⟩
        simp only [h1, h2]
        exact List.mem_append_left _ hc0
  · decide

/-- C6 witness: one resolution of the supplier-only company under another
casing, applied to the stored row ⟨1, "Acme GmbH", true, false⟩. -/
theorem company_role_flags_monotone_witness :
    ∃ c1 ∈ (get_company_by_name c6db "acme GMBH" false true).2.companies,
      c1.pk = (⟨1, "Acme GmbH", true, false⟩ : Company).pk ∧
      c1.name = (⟨1, "Acme GmbH", true, false⟩ : Company).name ∧
      ((⟨1, "Acme GmbH", true, false⟩ : Company).is_supplier = true →
        c1.is_supplier = true) ∧
      ((⟨1, "Acme GmbH", true, false⟩ : Company).is_manufacturer = true →
        c1.is_manufacturer = true) :=
  company_role_flags_monotone.1 c6db "acme GMBH" false true
    ⟨1, "Acme GmbH", true, false⟩ (by decide) (by decide)

/-! ## Claim C7 -/

/-- C7 counterexample: with the category "X" already stored as a *child*
of "Y" (pk 2, parent 1), a record whose product-group name is empty and
whose main-product-group name is "X" resolves the part to that nested
category — not to a root-level category named "X" as the claim states. -/
theorem category_promotion_not_root :
    (create_part_from_datanorm_item c7item "DC" exHash c7db).1.category = 2 ∧
    ((create_part_from_datanorm_item c7item "DC" exHash c7db).2.categories.find?
        (fun c => c.pk = 2)).map PartCategory.parent = some (some 1) :=
  ⟨rfl, rfl⟩

/-- Resolution of a root-level (parent-less) category request: the first
stored category with that name — *whatever its parent* — is reused, and a
fresh root category is created only if none exists. -/
theorem get_category_by_name_root (db : DB) (nm : String) :
    (get_category_by_name db nm "").1 ∈ (get_category_by_name db nm "").2.categories ∧
    (get_category_by_name db nm "").1.name = nm ∧
    (match db.categories.find? (fun x => x.name = nm) with
     | some c0 => (get_category_by_name db nm "").1 = c0 ∧
         (get_category_by_name db nm "").2 = db
     | none => (get_category_by_name db nm "").1.parent = none ∧
         (get_category_by_name db nm "").2.categories
           = db.categories ++ [(get_category_by_name db nm "").1]) := by
  cases h : db.categories.find? (fun x => x.name = nm) with
  | some c0 =>
    have hm := List.mem_of_find?_eq_some h
    have hn : c0.name = nm := by simpa using List.find?_some h
    simp [get_category_by_name, h, hm, hn]
  | none => simp [get_category_by_name, h]

/-- Resolution of a parent-scoped category request: the result is named as
requested and is linked to a parent category carrying the requested parent
name. -/
theorem get_category_by_name_child (db : DB) (nm pnm : String) (hp : pnm ≠ "") :
    ∃ par,
      (get_category_by_name db nm pnm).1 ∈ (get_category_by_name db nm pnm).2.categories ∧
      par ∈ (get_category_by_name db nm pnm).2.categories ∧
      (get_category_by_name db nm pnm).1.name = nm ∧
      (get_category_by_name db nm pnm).1.parent = some par.pk ∧
      par.name = pnm := by
  cases hpf : db.categories.find? (fun c => c.name = pnm) with
  | some p =>
    have hpm := List.mem_of_find?_eq_some hpf
    have hpn : p.name = pnm := by simpa using List.find?_some hpf
    cases hcf : db.categories.find? (fun c => c.name = nm ∧ c.parent = some p.pk) with
    | some c =>
      have hcm := List.mem_of_find?_eq_some hcf
      have hcn : c.name = nm ∧ c.parent = some p.pk := by
        simpa using List.find?_some hcf
      refine ⟨p, ?_, ?_, ?_, ?_, hpn⟩ <;>
        simp only [get_category_by_name, if_neg hp, hpf, hcf] <;>
        simp [hcm, hpm, hcn.1, hcn.2]
    | none =>
      refine ⟨p, ?_, ?_, ?_, ?_, hpn⟩ <;>
        simp only [get_category_by_name, if_neg hp, hpf, hcf] <;>
        simp [List.mem_append, hpm]
  | none =>
    cases hcf : (db.categories ++ [(⟨db.next_pk, pnm, none⟩ : PartCategory)]).find?
        (fun c => c.name = nm ∧ c.parent = some db.next_pk) with
    | some c =>
      have hcm := List.mem_of_find?_eq_some hcf
      have hcn : c.name = nm ∧ c.parent = some db.next_pk := by
        simpa using List.find?_some hcf
      refine ⟨⟨db.next_pk, pnm, none⟩, ?_, ?_, ?_, ?_, rfl⟩ <;>
        simp only [get_category_by_name, if_neg hp, hpf] <;>
        simp only [hcf] <;>
        simp [hcm, hcn.1, hcn.2, List.mem_append]
    | none =>
      refine ⟨⟨db.next_pk, pnm, none⟩, ?_, ?_, ?_, ?_, rfl⟩ <;>
        simp only [get_category_by_name, if_neg hp, hpf] <;>
        simp only [hcf] <;>
        simp [List.mem_append]

/-- C7 (amended): building a part from a record resolves its category with
this precedence — both group names empty: the factory's configured default
category name, resolved as a parentless request (reusing the first stored
category with that name whatever its parent, creating a root-level one
only if none exists); product-group name empty and main-product-group name
non-empty: likewise for the main-product-group name (so the promoted
"parent" is root-level only when no category of that name pre-exists);
both non-empty: a category named after the product-group, linked to a
parent named after the main-product-group. -/
theorem create_part_category_resolution (di : DatanormItem) (dc : String)
    (hash : String → String) (db : DB) :
    if di.product_group_name = "" ∧ di.main_product_group_name = "" then
      ∃ c, c ∈ (create_part_from_datanorm_item di dc hash db).2.categories ∧
        (create_part_from_datanorm_item di dc hash db).1.category = c.pk ∧
        c.name = dc ∧
        (match db.categories.find? (fun x => x.name = dc) with
         | some c0 => c = c0
         | none => c.parent = none)
    else if di.product_group_name = "" then
      ∃ c, c ∈ (create_part_from_datanorm_item di dc hash db).2.categories ∧
        (create_part_from_datanorm_item di dc hash db).1.category = c.pk ∧
        c.name = di.main_product_group_name ∧
        (match db.categories.find?
            (fun x => x.name = di.main_product_group_name) with
         | some c0 => c = c0
         | none => c.parent = none)
    else if di.main_product_group_name = "" then
      True
    else
      ∃ c par,
        c ∈ (create_part_from_datanorm_item di dc hash db).2.categories ∧
        par ∈ (create_part_from_datanorm_item di dc hash db).2.categories ∧
        (create_part_from_datanorm_item di dc hash db).1.category = c.pk ∧
        c.name = di.product_group_name ∧
        c.parent = some par.pk ∧
        par.name = di.main_product_group_name := by
  by_cases h1 : di.product_group_name = "" ∧ di.main_product_group_name = ""
  · rw [if_pos h1]
    have hroot := get_category_by_name_root db dc
    have hcat : (create_part_from_datanorm_item di dc hash db).2.categories
        = (get_category_by_name db dc "").2.categories := by
      simp [create_part_from_datanorm_item, h1.1, h1.2]
    have hpk2 : (create_part_from_datanorm_item di dc hash db).1.category
        = (get_category_by_name db dc "").1.pk := by
      simp [create_part_from_datanorm_item, h1.1, h1.2]
    refine ⟨(get_category_by_name db dc "").1, ?_, hpk2, hroot.2.1, ?_⟩
    · rw [hcat]; exact hroot.1
    · have hm := hroot.2.2
      cases h : db.categories.find? (fun x => x.name = dc) with
      | some c0 =>
        simp only [h] at hm ⊢
        exact hm.1
      | none =>
        simp only [h] at hm ⊢
        exact hm.1
  · rw [if_neg h1]
    by_cases h2 : di.product_group_name = ""
    · rw [if_pos h2]
      have h3 : di.main_product_group_name ≠ "" := fun hm => h1 ⟨h2, hm⟩
      have hroot := get_category_by_name_root db di.main_product_group_name
      have hcat : (create_part_from_datanorm_item di dc hash db).2.categories
          = (get_category_by_name db di.main_product_group_name "").2.categories := by
        simp [create_part_from_datanorm_item, h2, h3]
      have hpk2 : (create_part_from_datanorm_item di dc hash db).1.category
          = (get_category_by_name db di.main_product_group_name "").1.pk := by
        simp [create_part_from_datanorm_item, h2, h3]
      refine ⟨(get_category_by_name db di.main_product_group_name "").1, ?_, hpk2,
        hroot.2.1, ?_⟩
      · rw [hcat]; exact hroot.1
      · have hm := hroot.2.2
        cases h : db.categories.find?
            (fun x => x.name = di.main_product_group_name) with
        | some c0 =>
          simp only [h] at hm ⊢
          exact hm.1
        | none =>
          simp only [h] at hm ⊢
          exact hm.1
    · rw [if_neg h2]
      by_cases h3 : di.main_product_group_name = ""
      · rw [if_pos h3]; trivial
      · rw [if_neg h3]
        obtain ⟨par, hmem, hparmem, hname, hparent, hparname⟩ :=
          get_category_by_name_child db di.product_group_name
            di.main_product_group_name h3
        have hcat : (create_part_from_datanorm_item di dc hash db).2.categories
            = (get_category_by_name db di.product_group_name
                di.main_product_group_name).2.categories := by
          simp [create_part_from_datanorm_item, h2]
        have hpk2 : (create_part_from_datanorm_item di dc hash db).1.category
            = (get_category_by_name db di.product_group_name
                di.main_product_group_name).1.pk := by
          simp [create_part_from_datanorm_item, h2]
        refine ⟨(get_category_by_name db di.product_group_name
            di.main_product_group_name).1, par, ?_, ?_, hpk2, hname, hparent, hparname⟩
        · rw [hcat]; exact hmem
        · rw [hcat]; exact hparmem

/-! ## Claim C10 -/

/-- C10: every part created by either entry point — the placeholder path
and the full path — has `purchaseable = true` and `active = true`. -/
theorem created_parts_purchaseable_active (ean dc : String)
    (hash : String → String) (db : DB) (di : DatanormItem) :
    ((create_empty_part_from_ean ean dc hash db).1.purchaseable = true ∧
     (create_empty_part_from_ean ean dc hash db).1.active = true) ∧
    ((create_part_from_datanorm_item di dc hash db).1.purchaseable = true ∧
     (create_part_from_datanorm_item di dc hash db).1.active = true) :=
  ⟨⟨rfl, rfl⟩, ⟨rfl, rfl⟩⟩

/-! ## Frame lemmas for the graph-build loop (claims C3 and C4) -/

/-- Two databases with the same parts have the same keyword projection. -/
theorem partsKw_eq_of_parts {db1 db2 : DB} (h : db1.parts = db2.parts) :
    partsKw db1 = partsKw db2 := by
  simp [partsKw, h]

/-- Attaching an image changes neither pks nor keywords of the parts. -/
theorem partsKw_setPartImage (db : DB) (pk2 : Nat) :
    partsKw (setPartImage db pk2) = partsKw db := by
  simp only [partsKw, setPartImage, List.map_map]
  refine List.map_congr_left ?_
  intro p _
  by_cases h : p.pk = pk2 <;> simp [h, Function.comp]

/-- Assigning a barcode changes neither pks nor keywords of the parts. -/
theorem partsKw_assignBarcode (db : DB) (pk2 : Nat) (h r : String) :
    partsKw (assignBarcode db pk2 h r) = partsKw db := by
  simp only [partsKw, assignBarcode, List.map_map]
  refine List.map_congr_left ?_
  intro p _
  by_cases hc : p.pk = pk2 <;> simp [hc, Function.comp]

/-- `get_company_by_name` touches only the company table and the pk
counter. -/
theorem get_company_by_name_frame (db : DB) (nm : String) (s m : Bool) :
    (get_company_by_name db nm s m).2.parts = db.parts ∧
    (get_company_by_name db nm s m).2.supplier_parts = db.supplier_parts ∧
    (get_company_by_name db nm s m).2.manufacturer_parts = db.manufacturer_parts ∧
    (get_company_by_name db nm s m).2.categories = db.categories := by
  cases h1 : db.companies.find? (fun c => strContains c.name nm) with
  | some c => simp [get_company_by_name, h1]
  | none =>
    cases h2 : db.companies.find? (fun c => lowerStr c.name = lowerStr nm) with
    | some c => simp [get_company_by_name, h1, h2]
    | none => simp [get_company_by_name, h1, h2]

/-- `get_category_by_name` touches only the category table and the pk
counter. -/
theorem get_category_by_name_frame (db : DB) (nm pnm : String) :
    (get_category_by_name db nm pnm).2.parts = db.parts ∧
    (get_category_by_name db nm pnm).2.supplier_parts = db.supplier_parts ∧
    (get_category_by_name db nm pnm).2.manufacturer_parts = db.manufacturer_parts ∧
    (get_category_by_name db nm pnm).2.companies = db.companies := by
  by_cases hp : pnm = ""
  · cases h : db.categories.find? (fun c => c.name = nm) <;>
      simp [get_category_by_name, hp, h]
  · cases hpf : db.categories.find? (fun c => c.name = pnm) with
    | some p =>
      cases hcf : db.categories.find? (fun c => c.name = nm ∧ c.parent = some p.pk) with
      | some c =>
        refine ⟨?_, ?_, ?_, ?_⟩ <;>
          simp only [get_category_by_name, if_neg hp, hpf, hcf]
      | none =>
        refine ⟨?_, ?_, ?_, ?_⟩ <;>
          simp only [get_category_by_name, if_neg hp, hpf, hcf]
    | none =>
      cases hcf : (db.categories ++ [(⟨db.next_pk, pnm, none⟩ : PartCategory)]).find?
          (fun c => c.name = nm ∧ c.parent = some db.next_pk) with
      | some c =>
        refine ⟨?_, ?_, ?_, ?_⟩ <;>
          simp only [get_category_by_name, if_neg hp, hpf] <;>
          simp only [hcf]
      | none =>
        refine ⟨?_, ?_, ?_, ?_⟩ <;>
          simp only [get_category_by_name, if_neg hp, hpf] <;>
          simp only [hcf]

/-- `create_part_from_datanorm_item` appends the one new part row and
touches no company/manufacturer/supplier rows. -/
theorem create_part_frame (di : DatanormItem) (dc : String)
    (hash : String → String) (db : DB) :
    (create_part_from_datanorm_item di dc hash db).2.supplier_parts = db.supplier_parts ∧
    (create_part_from_datanorm_item di dc hash db).2.manufacturer_parts = db.manufacturer_parts ∧
    (create_part_from_datanorm_item di dc hash db).2.parts
      = db.parts ++ [(create_part_from_datanorm_item di dc hash db).1] := by
  by_cases h1 : di.product_group_name = "" ∧ di.main_product_group_name = ""
  · have hf := get_category_by_name_frame db dc ""
    refine ⟨?_, ?_, ?_⟩ <;> simp [create_part_from_datanorm_item, h1.1, h1.2, hf.1,
      hf.2.1, hf.2.2.1]
  · by_cases h2 : di.product_group_name = ""
    · have h3 : di.main_product_group_name ≠ "" := fun hm => h1 ⟨h2, hm⟩
      have hf := get_category_by_name_frame db di.main_product_group_name ""
      refine ⟨?_, ?_, ?_⟩ <;> simp [create_part_from_datanorm_item, h2, h3, hf.1,
        hf.2.1, hf.2.2.1]
    · have hf := get_category_by_name_frame db di.product_group_name
        di.main_product_group_name
      refine ⟨?_, ?_, ?_⟩ <;> simp [create_part_from_datanorm_item, h2, hf.1,
        hf.2.1, hf.2.2.1]

/-- Behaviour of `create_manufacturer_part_from_datanorm_item`: no part or
supplier rows change; a manufacturer part is appended exactly when the
record's manufacturer name is present (not `None`), and it carries the
part's pk and the record's alternative article id as MPN. -/
theorem create_manufacturer_part_spec (di : DatanormItem) (pk2 : Nat) (db : DB) :
    (create_manufacturer_part_from_datanorm_item di pk2 db).2.parts = db.parts ∧
    (create_manufacturer_part_from_datanorm_item di pk2 db).2.supplier_parts = db.supplier_parts ∧
    (match di.manufacturer_name with
     | none => (create_manufacturer_part_from_datanorm_item di pk2 db).1 = none ∧
         (create_manufacturer_part_from_datanorm_item di pk2 db).2.manufacturer_parts
           = db.manufacturer_parts
     | some _ => ∃ mp, (create_manufacturer_part_from_datanorm_item di pk2 db).1 = some mp ∧
         mp.part = pk2 ∧ mp.mpn = di.alt_article_id ∧
         (create_manufacturer_part_from_datanorm_item di pk2 db).2.manufacturer_parts
           = db.manufacturer_parts ++ [mp]) := by
  cases hm : di.manufacturer_name with
  | none => simp [create_manufacturer_part_from_datanorm_item, hm]
  | some nm =>
    have hf := get_company_by_name_frame db nm false true
    simp only [create_manufacturer_part_from_datanorm_item, hm]
    exact ⟨hf.1, hf.2.1, ⟨_, rfl, rfl, rfl, by simp [hf.2.2.1]⟩⟩

/-- A successful `fetch_and_save_image_to_part` can change only the image
flag of part rows. -/
theorem fetch_and_save_image_frame (net : Net) (db : DB) (pk2 : Nat)
    (w : Website) (db2 : DB)
    (h : fetch_and_save_image_to_part net db pk2 w = .ok db2) :
    partsKw db2 = partsKw db ∧
    db2.supplier_parts = db.supplier_parts ∧
    db2.manufacturer_parts = db.manufacturer_parts ∧
    db2.companies = db.companies ∧
    db2.categories = db.categories ∧
    db2.next_pk = db.next_pk := by
  unfold fetch_and_save_image_to_part at h
  cases hg : get_part_img_url net w with
  | error e => rw [hg] at h; cases h
  | ok pr =>
    rw [hg] at h
    obtain ⟨u, w2⟩ := pr
    by_cases ht : pyTruthy u = true
    · simp only [ht, if_true] at h
      cases u with
      | str s =>
        by_cases hs : (net.imgGet s).status = 200
        · simp only [hs, if_true] at h
          cases h
          exact ⟨partsKw_setPartImage db pk2, rfl, rfl, rfl, rfl, rfl⟩
        · simp only [hs, if_false] at h
          cases h
          exact ⟨rfl, rfl, rfl, rfl, rfl, rfl⟩
      | pynone => cases h
      | int n => cases h
      | list l => cases h
      | dict d => cases h
    · simp only [ht, if_false] at h
      cases h
      exact ⟨rfl, rfl, rfl, rfl, rfl, rfl⟩

/-- Behaviour of `create_supplier_part_from_datanorm_item` on success: the
new supplier part row is appended with a `None` manufacturer link, no
manufacturer rows change, and part pks/keywords are untouched. -/
theorem create_supplier_part_spec (net : Net) (di : DatanormItem) (pk2 : Nat)
    (db : DB) (sp : SupplierPart) (db2 : DB)
    (h : create_supplier_part_from_datanorm_item net di pk2 db = .ok (sp, db2)) :
    db2.supplier_parts = db.supplier_parts ++ [sp] ∧
    sp.manufacturer_part = none ∧
    db2.manufacturer_parts = db.manufacturer_parts ∧
    partsKw db2 = partsKw db := by
  unfold create_supplier_part_from_datanorm_item at h
  have hcf := get_company_by_name_frame db di.tag true false
  cases hw : get_supplier_website net di.tag di.article_id with
  | error e => simp only [hw] at h; cases h
  | ok ow =>
    cases ow with
    | none =>
      simp only [hw] at h
      cases h
      refine ⟨by simp [hcf.2.1], rfl, by simp [hcf.2.2.1], ?_⟩
      exact partsKw_eq_of_parts (by simp [hcf.1])
    | some w =>
      simp only [hw] at h
      by_cases hi : partHasImage (get_company_by_name db di.tag true false).2 pk2 = true
      · simp only [hi, if_true] at h
        cases h
        refine ⟨by simp [hcf.2.1], rfl, by simp [hcf.2.2.1], ?_⟩
        exact partsKw_eq_of_parts (by simp [hcf.1])
      · simp only [hi, if_false] at h
        cases hfi : fetch_and_save_image_to_part net
            (get_company_by_name db di.tag true false).2 pk2 w with
        | error e => rw [hfi] at h; cases h
        | ok db3 =>
          rw [hfi] at h
          cases h
          have hff := fetch_and_save_image_frame net _ pk2 w db3 hfi
          have hkwp : partsKw db3 = partsKw db := by
            rw [hff.1]; exact partsKw_eq_of_parts hcf.1
          refine ⟨by simp [hff.2.1, hcf.2.1], rfl, by simp [hff.2.2.1, hcf.2.2.1], ?_⟩
          rw [← hkwp]
          exact partsKw_eq_of_parts rfl

/-- Behaviour of the per-record loop: one supplier part per record is
appended (created with no manufacturer link, pks collected in order), part
pks/keywords are untouched, and — when no manufacturer part exists yet —
exactly one manufacturer part is appended, taken from the first record
whose manufacturer name is present. -/
theorem create_parts_loop_spec (net : Net) (pk2 : Nat) :
    ∀ (items : List DatanormItem) (mp0 : Option ManufacturerPart) (db : DB)
      (mp1 : Option ManufacturerPart) (pks : List Nat) (db1 : DB),
      create_parts_loop net pk2 items mp0 db = .ok (mp1, pks, db1) →
      ∃ newSps : List SupplierPart,
        db1.supplier_parts = db.supplier_parts ++ newSps ∧
        newSps.map SupplierPart.pk = pks ∧
        newSps.length = items.length ∧
        (∀ sp ∈ newSps, sp.manufacturer_part = none) ∧
        partsKw db1 = partsKw db ∧
        (match mp0 with
         | some mp => mp1 = some mp ∧ db1.manufacturer_parts = db.manufacturer_parts
         | none =>
           match items.find? (fun di => di.manufacturer_name.isSome) with
           | none => mp1 = none ∧ db1.manufacturer_parts = db.manufacturer_parts
           | some fw => ∃ mp, mp1 = some mp ∧ mp.part = pk2 ∧
               db1.manufacturer_parts = db.manufacturer_parts ++ [mp] ∧
               mp.mpn = fw.alt_article_id) := by
  intro items
  induction items with
  | nil =>
    intro mp0 db mp1 pks db1 h
    simp only [create_parts_loop, Except.ok.injEq, Prod.mk.injEq] at h
    obtain ⟨rfl, rfl, rfl⟩ := h
    exact ⟨[], by simp, rfl, rfl, by simp, rfl, by cases mp0 <;> simp⟩
  | cons di rest ih =>
    intro mp0 db mp1 pks db1 h
    simp only [create_parts_loop] at h
    cases mp0 with
    | some mp =>
      dsimp only at h
      cases hsp : create_supplier_part_from_datanorm_item net di pk2 db with
      | error e => rw [hsp] at h; simp at h
      | ok pr =>
        obtain ⟨sp, db2⟩ := pr
        rw [hsp] at h
        dsimp only at h
        cases hrec : create_parts_loop net pk2 rest (some mp) db2 with
        | error e => rw [hrec] at h; simp at h
        | ok tr =>
          obtain ⟨mpr, pksr, db3⟩ := tr
          rw [hrec] at h
          simp only [Except.ok.injEq, Prod.mk.injEq] at h
          obtain ⟨rfl, rfl, rfl⟩ := h
          have hss := create_supplier_part_spec net di pk2 db sp db2 hsp
          obtain ⟨newSps, hsup, hmap, hlen, hnone, hpkw, hmatch⟩ :=
            ih (some mp) db2 mpr pksr db3 hrec
          have hmatch2 : mpr = some mp ∧
              db3.manufacturer_parts = db2.manufacturer_parts := hmatch
          refine ⟨sp :: newSps, ?_, ?_, ?_, ?_, ?_, ?_⟩
          · rw [hsup, hss.1]; simp
          · simp [hmap]
          · simp [hlen]
          · intro sp0 hsp0
            rcases List.mem_cons.mp hsp0 with hh | ht
            · rw [hh]; exact hss.2.1
            · exact hnone sp0 ht
          · rw [hpkw]; exact hss.2.2.2
          · exact ⟨hmatch2.1, by rw [hmatch2.2, hss.2.2.1]⟩
    | none =>
      dsimp only at h
      rcases hstep : create_manufacturer_part_from_datanorm_item di pk2 db
        with ⟨mpN, dbN⟩
      rw [hstep] at h
      dsimp only at h
      have hms := create_manufacturer_part_spec di pk2 db
      rw [hstep] at hms
      dsimp only at hms
      cases hsp : create_supplier_part_from_datanorm_item net di pk2 dbN with
      | error e => rw [hsp] at h; simp at h
      | ok pr =>
        obtain ⟨sp, db2⟩ := pr
        rw [hsp] at h
        dsimp only at h
        cases hrec : create_parts_loop net pk2 rest mpN db2 with
        | error e => rw [hrec] at h; simp at h
        | ok tr =>
          obtain ⟨mpr, pksr, db3⟩ := tr
          rw [hrec] at h
          simp only [Except.ok.injEq, Prod.mk.injEq] at h
          obtain ⟨rfl, rfl, rfl⟩ := h
          have hss := create_supplier_part_spec net di pk2 dbN sp db2 hsp
          obtain ⟨newSps, hsup, hmap, hlen, hnone, hpkw, hmatch⟩ :=
            ih mpN db2 mpr pksr db3 hrec
          refine ⟨sp :: newSps, ?_, ?_, ?_, ?_, ?_, ?_⟩
          · rw [hsup, hss.1, hms.2.1]; simp
          · simp [hmap]
          · simp [hlen]
          · intro sp0 hsp0
            rcases List.mem_cons.mp hsp0 with hh | ht
            · rw [hh]; exact hss.2.1
            · exact hnone sp0 ht
          · rw [hpkw, hss.2.2.2]
            exact partsKw_eq_of_parts hms.1
          · cases hmn : di.manufacturer_name with
            | none =>
              have hms2 : mpN = none ∧ dbN.manufacturer_parts = db.manufacturer_parts := by
                have := hms.2.2
                rw [hmn] at this
                exact this
              rw [hms2.1] at hmatch
              have hfind : (di :: rest).find? (fun d => d.manufacturer_name.isSome)
                  = rest.find? (fun d => d.manufacturer_name.isSome) := by
                simp [List.find?, hmn]
              rw [hfind]
              cases hf2 : rest.find? (fun d => d.manufacturer_name.isSome) with
              | none =>
                rw [hf2] at hmatch
                have hmatch2 : mpr = none ∧
                    db3.manufacturer_parts = db2.manufacturer_parts := hmatch
                exact ⟨hmatch2.1,
                  by rw [hmatch2.2, hss.2.2.1, hms2.2]⟩
              | some fw =>
                rw [hf2] at hmatch
                obtain ⟨mpF, hmp1, hpart, hman, hmpn⟩ := hmatch
                exact ⟨mpF, hmp1, hpart,
                  by rw [hman, hss.2.2.1, hms2.2], hmpn⟩
            | some nm =>
              have hms2 : ∃ mpW, mpN = some mpW ∧ mpW.part = pk2 ∧
                  mpW.mpn = di.alt_article_id ∧
                  dbN.manufacturer_parts = db.manufacturer_parts ++ [mpW] := by
                have := hms.2.2
                rw [hmn] at this
                exact this
              obtain ⟨mpW, hmpN, hpart, hmpn, hman⟩ := hms2
              rw [hmpN] at hmatch
              have hmatch2 : mpr = some mpW ∧
                  db3.manufacturer_parts = db2.manufacturer_parts := hmatch
              have hfind : (di :: rest).find? (fun d => d.manufacturer_name.isSome)
                  = some di := by
                simp [List.find?, hmn]
              rw [hfind]
              exact ⟨mpW, hmatch2.1, hpart,
                by rw [hmatch2.2, hss.2.2.1, hman], hmpn⟩

/-- The backfill rewrites exactly the supplier rows whose pks were
collected, setting their manufacturer link; parts and manufacturer rows
are untouched. -/
theorem backfill_manufacturer_spec (pks : List Nat) (mpPk : Nat) (db : DB) :
    (backfill_manufacturer pks mpPk db).parts = db.parts ∧
    (backfill_manufacturer pks mpPk db).manufacturer_parts = db.manufacturer_parts ∧
    (backfill_manufacturer pks mpPk db).supplier_parts
      = db.supplier_parts.map (fun sp =>
          if sp.pk ∈ pks then { sp with manufacturer_part := some mpPk } else sp) := by
  induction pks generalizing db with
  | nil =>
    refine ⟨rfl, rfl, ?_⟩
    simp [backfill_manufacturer]
  | cons k ks ih =>
    have hstep := ih { db with supplier_parts := db.supplier_parts.map (fun sp =>
      if sp.pk = k then { sp with manufacturer_part := some mpPk } else sp) }
    refine ⟨?_, ?_, ?_⟩
    · simpa only [backfill_manufacturer, List.foldl_cons] using hstep.1
    · simpa only [backfill_manufacturer, List.foldl_cons] using hstep.2.1
    · have h3 := hstep.2.2
      simp only [backfill_manufacturer, List.foldl_cons] at h3 ⊢
      rw [h3, List.map_map]
      refine List.map_congr_left ?_
      intro sp _
      by_cases h1 : sp.pk = k
      · by_cases h2 : sp.pk ∈ ks <;>
          simp [Function.comp, h1, h2, List.mem_cons]
      · by_cases h2 : sp.pk ∈ ks <;>
          simp [Function.comp, h1, h2, List.mem_cons]

/-- The base-part step changes no supplier or manufacturer rows. -/
theorem resolve_base_part_frame (first : DatanormItem) (hash : String → String)
    (db : DB) :
    (resolve_base_part first hash db).2.supplier_parts = db.supplier_parts ∧
    (resolve_base_part first hash db).2.manufacturer_parts = db.manufacturer_parts := by
  cases hfind : db.parts.find? (fun p => p.name = first.item_name) with
  | none =>
    have hfr := create_part_frame first "Fallback Category" hash db
    simp [resolve_base_part, hfind, hfr.1, hfr.2.1]
  | some q => simp [resolve_base_part, hfind]

/-- The stored row looked up by pk (with a same-pk default) keeps the
pk. -/
theorem find?_pk_getD (l : List Part) (k : Nat) (d : Part) (hd : d.pk = k) :
    ((l.find? (fun q => q.pk = k)).getD d).pk = k := by
  cases h : l.find? (fun q => q.pk = k) with
  | none => simpa using hd
  | some q => simpa using List.find?_some h

/-- C3 (amended): a successful `create_all_parts_from_datanorm_items` run
appends exactly one SupplierPart per record; exactly one ManufacturerPart
is created iff some record's manufacturer name is *present* (not `None`
— an empty string still counts), taken from the first such record (its
MPN), and in that case every SupplierPart created by the invocation ends
up referencing that single ManufacturerPart, which belongs to the returned
part. -/
theorem create_all_parts_from_datanorm_items_spec
    (net : Net) (hash : String → String) (items : List DatanormItem)
    (db : DB) (p : Part) (db1 : DB)
    (h : create_all_parts_from_datanorm_items net hash items db = .ok (p, db1)) :
    ∃ oldSps newSps : List SupplierPart,
      db1.supplier_parts = oldSps ++ newSps ∧
      oldSps.length = db.supplier_parts.length ∧
      newSps.length = items.length ∧
      (match items.find? (fun di => di.manufacturer_name.isSome) with
       | none => db1.manufacturer_parts = db.manufacturer_parts
       | some fw =>
         ∃ mp, db1.manufacturer_parts = db.manufacturer_parts ++ [mp] ∧
           mp.mpn = fw.alt_article_id ∧ mp.part = p.pk ∧
           ∀ sp ∈ newSps, sp.manufacturer_part = some mp.pk) := by
  cases items with
  | nil => simp [create_all_parts_from_datanorm_items] at h
  | cons first rest =>
    simp only [create_all_parts_from_datanorm_items] at h
    rcases hPD : resolve_base_part first hash db with ⟨part0, dbA⟩
    rw [hPD] at h
    dsimp only at h
    have hA := resolve_base_part_frame first hash db
    rw [hPD] at hA
    dsimp only at hA
    cases hloop : create_parts_loop net part0.pk (first :: rest) none dbA with
    | error e => rw [hloop] at h; simp at h
    | ok tr =>
      obtain ⟨mpR, spPks, dbB⟩ := tr
      rw [hloop] at h
      dsimp only at h
      obtain ⟨newSps, hsup, hmap, hlen, hnone, hpkw, hmatch⟩ :=
        create_parts_loop_spec net part0.pk (first :: rest) none dbA mpR spPks dbB hloop
      cases mpR with
      | none =>
        dsimp only at h
        simp only [Except.ok.injEq, Prod.mk.injEq] at h
        obtain ⟨rfl, rfl⟩ := h
        cases hf : (first :: rest).find? (fun d => d.manufacturer_name.isSome) with
        | some fw =>
          rw [hf] at hmatch
          have hmatch2 : ∃ mp : ManufacturerPart,
              (none : Option ManufacturerPart) = some mp ∧ mp.part = part0.pk ∧
              dbB.manufacturer_parts = dbA.manufacturer_parts ++ [mp] ∧
              mp.mpn = fw.alt_article_id := hmatch
          obtain ⟨mp, hc, _⟩ := hmatch2
          simp at hc
        | none =>
          rw [hf] at hmatch
          have hmatch2 : (none : Option ManufacturerPart) = none ∧
              dbB.manufacturer_parts = dbA.manufacturer_parts := hmatch
          refine ⟨dbA.supplier_parts, newSps, hsup, by rw [hA.1],
            by simpa using hlen, ?_⟩
          show dbB.manufacturer_parts = db.manufacturer_parts
          rw [hmatch2.2, hA.2]
      | some mpR2 =>
        dsimp only at h
        simp only [Except.ok.injEq, Prod.mk.injEq] at h
        obtain ⟨rfl, rfl⟩ := h
        cases hf : (first :: rest).find? (fun d => d.manufacturer_name.isSome) with
        | none =>
          rw [hf] at hmatch
          have hmatch2 : (some mpR2 : Option ManufacturerPart) = none ∧
              dbB.manufacturer_parts = dbA.manufacturer_parts := hmatch
          exact absurd hmatch2.1 (by simp)
        | some fw =>
          rw [hf] at hmatch
          have hmatch2 : ∃ mp : ManufacturerPart,
              (some mpR2 : Option ManufacturerPart) = some mp ∧ mp.part = part0.pk ∧
              dbB.manufacturer_parts = dbA.manufacturer_parts ++ [mp] ∧
              mp.mpn = fw.alt_article_id := hmatch
          obtain ⟨mp, hmp, hpart, hman, hmpn⟩ := hmatch2
          rw [Option.some_inj] at hmp
          subst hmp
          have hbf := backfill_manufacturer_spec spPks mpR2.pk dbB
          refine ⟨dbA.supplier_parts.map (fun sp =>
              if sp.pk ∈ spPks then { sp with manufacturer_part := some mpR2.pk }
              else sp),
            newSps.map (fun sp =>
              if sp.pk ∈ spPks then { sp with manufacturer_part := some mpR2.pk }
              else sp), ?_, ?_, ?_, ?_⟩
          · rw [hbf.2.2, hsup, List.map_append]
          · simp [hA.1]
          · simpa using hlen
          · refine ⟨mpR2, ?_, hmpn, ?_, ?_⟩
            · rw [hbf.2.1, hman, hA.2]
            · rw [find?_pk_getD _ part0.pk part0 rfl]
              exact hpart
            · intro sp hsp
              obtain ⟨x, hx, rfl⟩ := List.mem_map.mp hsp
              have hxpk : x.pk ∈ spPks := by
                rw [← hmap]
                exact List.mem_map_of_mem _ hx
              simp [hxpk]

/-- C3 counterexample: a single record whose manufacturer name is present
but *empty* ("" is not `None`, yet not non-empty) still creates a
ManufacturerPart — the claim requires that records without a non-empty
manufacturer name create none. -/
theorem manufacturer_created_for_empty_name :
    c3item.manufacturer_name = some "" ∧
    c3run.toOption.map (fun r => r.2.manufacturer_parts.length) = some 1 :=
  ⟨rfl, by decide⟩

/-- C3 witness: two records (supplier tags S1 and S2), only the second of
which carries a manufacturer name, applied to the empty database. -/
theorem create_all_parts_from_datanorm_items_spec_witness :
    ∃ oldSps newSps : List SupplierPart,
      c3wDB.supplier_parts = oldSps ++ newSps ∧
      oldSps.length = emptyDB.supplier_parts.length ∧
      newSps.length = c3wItems.length ∧
      (match c3wItems.find? (fun di => di.manufacturer_name.isSome) with
       | none => c3wDB.manufacturer_parts = emptyDB.manufacturer_parts
       | some fw =>
         ∃ mp, c3wDB.manufacturer_parts = emptyDB.manufacturer_parts ++ [mp] ∧
           mp.mpn = fw.alt_article_id ∧ mp.part = c3wPart.pk ∧
           ∀ sp ∈ newSps, sp.manufacturer_part = some mp.pk) :=
  create_all_parts_from_datanorm_items_spec offlineNet exHash c3wItems emptyDB
    c3wPart c3wDB rfl

/-! ## Claim C4 -/

/-- The placeholder path appends exactly its one new part row. -/
theorem create_empty_part_parts (ean dc : String) (hash : String → String)
    (db : DB) :
    (create_empty_part_from_ean ean dc hash db).2.parts
      = db.parts ++ [(create_empty_part_from_ean ean dc hash db).1] := by
  have hf := get_category_by_name_frame db dc ""
  simp [create_empty_part_from_ean, hf.1]

/-- The base-part step either appends the one new part row or reuses (the
pk of) an already-stored part. -/
theorem resolve_base_part_cases (first : DatanormItem) (hash : String → String)
    (db : DB) :
    ((resolve_base_part first hash db).2.parts
       = db.parts ++ [(resolve_base_part first hash db).1])
    ∨ (∃ q ∈ db.parts, (resolve_base_part first hash db).1.pk = q.pk) := by
  cases hfind : db.parts.find? (fun q => q.name = first.item_name) with
  | none =>
    left
    have hfr := create_part_frame first "Fallback Category" hash db
    simpa [resolve_base_part, hfind] using hfr.2.2
  | some q =>
    right
    exact ⟨q, List.mem_of_find?_eq_some hfind, by simp [resolve_base_part, hfind]⟩

/-- Keyword projection of a successful full-graph build that returned a
*new* part (one with a fresh pk): exactly one projection entry is
appended, carrying the returned part's pk. -/
theorem create_all_parts_items_partsKw (net : Net) (hash : String → String)
    (items : List DatanormItem) (db : DB) (p : Part) (db1 : DB)
    (h : create_all_parts_from_datanorm_items net hash items db = .ok (p, db1))
    (hnew : ∀ q ∈ db.parts, q.pk ≠ p.pk) :
    ∃ kw, partsKw db1 = partsKw db ++ [(p.pk, kw)] := by
  cases items with
  | nil => simp [create_all_parts_from_datanorm_items] at h
  | cons first rest =>
    simp only [create_all_parts_from_datanorm_items] at h
    rcases hPD : resolve_base_part first hash db with ⟨part0, dbA⟩
    rw [hPD] at h
    dsimp only at h
    have hcases := resolve_base_part_cases first hash db
    rw [hPD] at hcases
    dsimp only at hcases
    cases hloop : create_parts_loop net part0.pk (first :: rest) none dbA with
    | error e => rw [hloop] at h; simp at h
    | ok tr =>
      obtain ⟨mpR, spPks, dbB⟩ := tr
      rw [hloop] at h
      dsimp only at h
      obtain ⟨newSps, hsup, hmap, hlen, hnone, hpkw, hmatch⟩ :=
        create_parts_loop_spec net part0.pk (first :: rest) none dbA mpR spPks dbB hloop
      cases mpR with
      | none =>
        dsimp only at h
        simp only [Except.ok.injEq, Prod.mk.injEq] at h
        obtain ⟨rfl, rfl⟩ := h
        have hppk := find?_pk_getD dbB.parts part0.pk part0 rfl
        cases hcases with
        | inr hex =>
          obtain ⟨q, hq, hqe⟩ := hex
          exact absurd (hppk.trans hqe).symm (hnew q hq)
        | inl happ =>
          refine ⟨part0.keywords, ?_⟩
          rw [hppk, hpkw]
          simp [partsKw, happ]
      | some mpR2 =>
        dsimp only at h
        simp only [Except.ok.injEq, Prod.mk.injEq] at h
        obtain ⟨rfl, rfl⟩ := h
        have hbf := backfill_manufacturer_spec spPks mpR2.pk dbB
        have hppk := find?_pk_getD (backfill_manufacturer spPks mpR2.pk dbB).parts
          part0.pk part0 rfl
        cases hcases with
        | inr hex =>
          obtain ⟨q, hq, hqe⟩ := hex
          exact absurd (hppk.trans hqe).symm (hnew q hq)
        | inl happ =>
          refine ⟨part0.keywords, ?_⟩
          rw [hppk]
          have hkb : partsKw (backfill_manufacturer spPks mpR2.pk dbB) = partsKw dbB :=
            partsKw_eq_of_parts hbf.1
          rw [hkb, hpkw]
          simp [partsKw, happ]

/-- Keyword projection of a successful `create_all_parts` run returning a
new part: one appended entry with the returned part's pk. -/
theorem create_all_parts_new_part (env : Env) (db : DB) (ean : String)
    (p : Part) (db1 : DB)
    (h : create_all_parts env db ean = .ok (p, db1))
    (hnew : ∀ q ∈ db.parts, q.pk ≠ p.pk) :
    ∃ kw, partsKw db1 = partsKw db ++ [(p.pk, kw)] := by
  unfold create_all_parts at h
  by_cases hl : (if env.use_default_category = "True"
      then overwrite_category (env.items_for ean) env.default_category
      else env.items_for ean).length > 0
  · rw [if_pos hl] at h
    exact create_all_parts_items_partsKw env.net env.hash _ db p db1 h hnew
  · rw [if_neg hl] at h
    simp only [Except.ok.injEq, Prod.mk.injEq] at h
    obtain ⟨rfl, rfl⟩ := h
    refine ⟨ean, ?_⟩
    have happ := create_empty_part_parts ean env.default_category env.hash db
    have hcf := get_category_by_name_frame db env.default_category ""
    simp [partsKw, happ, hcf.1]

/-- `find?` commutes with the keyword projection for keyword
predicates. -/
theorem find?_parts_proj (l : List Part) (pred : String → Bool) :
    (l.find? (fun q => pred q.keywords)).map (fun q => (q.pk, q.keywords))
      = (l.map (fun q => (q.pk, q.keywords))).find? (fun x => pred x.2) := by
  induction l with
  | nil => rfl
  | cons q l ih =>
    by_cases hq : pred q.keywords = true
    · simp [List.find?, hq]
    · simp [List.find?, hq, ih]

/-- C4: scanning is idempotent.  If scanning a (valid) identifier returned
a *newly created* part — its pk was stored by no part before the scan —
and the stored part's keywords contain the identifier, then a second scan
of the same identifier resolves to the same part pk and creates no further
part. -/
theorem scan_idempotent (env : Env) (db0 : DB) (ean : String) (pk : Nat)
    (db1 : DB)
    (h1 : scan env db0 ean = .ok (some pk, db1))
    (hnew : ∀ q ∈ db0.parts, q.pk ≠ pk)
    (hkw : ∀ q ∈ db1.parts, q.pk = pk → strContains q.keywords ean = true) :
    ∃ db2, scan env db1 ean = .ok (some pk, db2) ∧
      db2.parts.length = db1.parts.length := by
  unfold scan at h1
  cases hv : is_valid_ean_code ean with
  | error e => rw [hv] at h1; simp at h1
  | ok b =>
    rw [hv] at h1
    cases b with
    | false => simp at h1
    | true =>
      dsimp only at h1
      cases hf : db0.parts.find? (fun q => strContains q.keywords ean) with
      | some q =>
        rw [hf] at h1
        dsimp only at h1
        have hqm := List.mem_of_find?_eq_some hf
        by_cases hr : (env.reassign = "True" && q.barcode_hash = "") = true
        · rw [if_pos hr] at h1
          simp only [Except.ok.injEq, Prod.mk.injEq, Option.some.injEq] at h1
          exact absurd h1.1 (hnew q hqm)
        · rw [if_neg hr] at h1
          simp only [Except.ok.injEq, Prod.mk.injEq, Option.some.injEq] at h1
          exact absurd h1.1 (hnew q hqm)
      | none =>
        rw [hf] at h1
        dsimp only at h1
        cases hc : create_all_parts env db0 ean with
        | error e => rw [hc] at h1; simp at h1
        | ok pr =>
          obtain ⟨part, db1x⟩ := pr
          rw [hc] at h1
          dsimp only at h1
          simp only [Except.ok.injEq, Prod.mk.injEq, Option.some.injEq] at h1
          obtain ⟨hpk, rfl⟩ := h1
          have hnew2 : ∀ q ∈ db0.parts, q.pk ≠ part.pk := by
            intro q hq
            rw [hpk]
            exact hnew q hq
          obtain ⟨kw, hproj⟩ := create_all_parts_new_part env db0 ean part db1x hc hnew2
          have hpkkw : (part.pk, kw) ∈ partsKw db1x := by
            rw [hproj]
            simp
          obtain ⟨row, hrowm, hre⟩ := List.mem_map.mp hpkkw
          have hrowpk : row.pk = part.pk := congrArg Prod.fst hre
          have hrowkw : row.keywords = kw := congrArg Prod.snd hre
          have hcont : strContains kw ean = true := by
            rw [← hrowkw]
            exact hkw row hrowm (by rw [hrowpk, hpk])
          have hkwfind : (partsKw db1x).find? (fun x => strContains x.2 ean)
              = some (part.pk, kw) := by
            have hfnone : (partsKw db0).find? (fun x => strContains x.2 ean) = none := by
              apply List.find?_eq_none.mpr
              intro x hx
              obtain ⟨q2, hq2, rfl⟩ := List.mem_map.mp hx
              have := List.find?_eq_none.mp hf q2 hq2
              simpa using this
            rw [hproj, List.find?_append, hfnone]
            simp [List.find?, hcont]
          have hfind2 : ∃ row2, db1x.parts.find?
              (fun q2 => strContains q2.keywords ean) = some row2 ∧
              row2.pk = part.pk := by
            have hcomm : (db1x.parts.find? (fun q2 => strContains q2.keywords ean)).map
                (fun q2 => (q2.pk, q2.keywords))
                = (partsKw db1x).find? (fun x => strContains x.2 ean) :=
              find?_parts_proj db1x.parts (fun s => strContains s ean)
            rw [hkwfind] at hcomm
            cases hff : db1x.parts.find? (fun q2 => strContains q2.keywords ean) with
            | none => rw [hff] at hcomm; simp at hcomm
            | some row2 =>
              rw [hff] at hcomm
              simp only [Option.map_some', Option.some_inj, Prod.mk.injEq] at hcomm
              exact ⟨row2, rfl, hcomm.1⟩
          obtain ⟨row2, hrow2, hrow2pk⟩ := hfind2
          by_cases hr : (env.reassign = "True" && row2.barcode_hash = "") = true
          · refine ⟨assignBarcode db1x row2.pk (env.hash ean) ean, ?_, ?_⟩
            · unfold scan
              rw [hv]
              dsimp only
              rw [hrow2]
              dsimp only
              rw [if_pos hr, hrow2pk, hpk]
            · simp [assignBarcode]
          · refine ⟨db1x, ?_, rfl⟩
            unfold scan
            rw [hv]
            dsimp only
            rw [hrow2]
            dsimp only
            rw [if_neg hr, hrow2pk, hpk]

/-- C4 witness: a first scan of the EAN-8 "90311017" against the empty
store (no matching DATANORM records, part created via the placeholder
path), followed by a second scan. -/
theorem scan_idempotent_witness :
    ∃ db2, scan c4Env c4db1 "90311017" = .ok (some 2, db2) ∧
      db2.parts.length = c4db1.parts.length :=
  scan_idempotent c4Env emptyDB "90311017" 2 c4db1 rfl (by decide) (by decide)

/-! ## Claim C9 -/

/-- C9 (code bug): the Buerkle and Zander image lookups do *not* degrade
to an empty URL when the network fetch fails.  With every request
answering HTTP 500, `get_supplier_website` succeeds and hands back a
website whose `parameters` is `None`; `get_part_img_url` then re-fetches
(again leaving `None`) and subscripts `self.parameters` — `None["image"]`
/ `None["artikel_prefix"]` — raising `TypeError` past the gateway
boundary instead of returning `""`.  (The dead `img_url = ""`
initialisation in both methods, and the sibling Sonepar/Wuerth
implementations which do return `""` on failure, show the intended
behaviour.) -/
theorem img_url_raises_on_failed_fetch :
    get_supplier_website offlineNet "BUERKLE" "0134989"
      = .ok (some ⟨SupplierKind.buerkle, "0134989", none⟩) ∧
    get_part_img_url offlineNet ⟨SupplierKind.buerkle, "0134989", none⟩
      = .error "TypeError" ∧
    get_supplier_website offlineNet "ZANDER" "2275151"
      = .ok (some ⟨SupplierKind.zander, "2275151", none⟩) ∧
    get_part_img_url offlineNet ⟨SupplierKind.zander, "2275151", none⟩
      = .error "TypeError" :=
  ⟨rfl, rfl, rfl, rfl⟩

end DatanormImport
